import Mathlib

/-!
# EClet command line driver: `src/cli/main.c`

A shallow embedding of `parse_opt` and `main` of `main.c`, the argp callback
that fills the `struct arguments` record, together with the C library
functions it calls (`strtol`, `atoi`).

Conventions of the embedding.

* A C string (`char *`) is a `String`; a pointer field of the record is an
  `Option String` (`none` is the null pointer).
* C integers are `Int`; a conversion to a narrower type is an explicit
  reduction modulo a power of two.
* `argp_parse` is called by `main` with flags `0`, so `argp_usage` prints the
  usage text and terminates the process.  A call of `parse_opt` therefore has
  two outcomes: `Outcome.usage s` (the process ended inside `argp_usage`, `s`
  being the program state at that moment) and `Outcome.ret code s`
  (`parse_opt` returned `code`).
* Text written to `stderr` (`fprintf`, `LCA_LOG`) is not part of the state.
-/

namespace EClet

/-! ## C library -/

/-- The two data models of the platforms the driver is built for: 32 bit
`long` (ILP32, e.g. 32 bit ARM) and 64 bit `long` (LP64). `int` has 32 bits in
both. -/
inductive DataModel where
  | ILP32
  | LP64
  deriving DecidableEq, Repr

/-- `LONG_MAX` of `<limits.h>`. -/
def LONG_MAX : DataModel → Int
  | .ILP32 => 2147483647
  | .LP64 => 9223372036854775807

/-- `LONG_MIN` of `<limits.h>`. -/
def LONG_MIN (dm : DataModel) : Int := -(LONG_MAX dm) - 1

/-- `isspace` of `<ctype.h>` in the C locale: space, `\t`, `\n`, `\v`, `\f`,
`\r`. -/
def isspace (c : Char) : Bool :=
  c.toNat == 32 || (9 ≤ c.toNat && c.toNat ≤ 13)

/-- The value of a character as a digit in `strtol`: `0`-`9` are 0..9, letters
of either case are 10..35, any other character is not a digit. -/
def digit_value (c : Char) : Option Nat :=
  if 48 ≤ c.toNat ∧ c.toNat ≤ 57 then some (c.toNat - 48)
  else if 97 ≤ c.toNat ∧ c.toNat ≤ 122 then some (c.toNat - 97 + 10)
  else if 65 ≤ c.toNat ∧ c.toNat ≤ 90 then some (c.toNat - 65 + 10)
  else none

/-- The digit loop of `strtol`: consumes the longest run of characters that
are digits of `base` and accumulates their value (unbounded here; the range
check is made by `strtol`). -/
def strtol_digits (base : Nat) : List Char → Nat → Nat
  | [], acc => acc
  | c :: cs, acc =>
    match digit_value c with
    | some d => if d < base then strtol_digits base cs (acc * base + d) else acc
    | none => acc

/-- Optional sign of `strtol`: returns whether the number is negative and the
rest of the string. -/
def strtol_sign : List Char → Bool × List Char
  | '-' :: r => (true, r)
  | '+' :: r => (false, r)
  | r => (false, r)

/-- Optional `0x` / `0X` prefix of `strtol`, recognised for base 16 only. When
no hexadecimal digit follows the prefix, `strtol` converts the `0` alone; the
value is 0 in both readings. -/
def strtol_skip_0x (base : Nat) (s : List Char) : List Char :=
  if base = 16 then
    match s with
    | '0' :: x :: r => if x = 'x' ∨ x = 'X' then r else s
    | _ => s
  else s

/-- `strtol (nptr, NULL, base)` for `base` 10 or 16: skip white space, read an
optional sign, an optional `0x` prefix (base 16), then the longest run of
digits. Without any digit the result is 0. A value out of the range of `long`
is replaced by `LONG_MAX` or `LONG_MIN`. -/
def strtol (dm : DataModel) (nptr : String) (base : Nat) : Int :=
  let s := strtol_sign (nptr.data.dropWhile isspace)
  let mag : Int := (strtol_digits base (strtol_skip_0x base s.2) 0 : Nat)
  if s.1 then
    if -mag < LONG_MIN dm then LONG_MIN dm else -mag
  else
    if LONG_MAX dm < mag then LONG_MAX dm else mag

/-- Conversion of a `long` to `int` (32 bit two's complement). -/
def long_to_int (x : Int) : Int :=
  (x + 2147483648) % 4294967296 - 2147483648

/-- `atoi (nptr)`, which is `(int) strtol (nptr, NULL, 10)`. -/
def atoi (dm : DataModel) (nptr : String) : Int :=
  long_to_int (strtol dm nptr 10)

/-! ## Declarations of `cli_commands.h` and `libcryptoauth.h` -/

/-- Modelled from the spec: the constant `NUM_ARGS` of `cli_commands.h`, which
is not part of the sources at hand. The spec accepts exactly one positional
command word, and `main` reads `arguments.args[0]`. -/
def NUM_ARGS : Nat := 1

/-- The log levels of libcryptoauth (`enum LCA_LOG_LEVEL`). -/
inductive LogLevel where
  | SEVERE
  | WARNING
  | INFO
  | DEBUG
  deriving DecidableEq, Repr

/-- The record `struct arguments` that `parse_opt` fills. Only the fields that
`main.c` touches are listed. -/
structure arguments where
  args : Fin NUM_ARGS → Option String
  silent : Int
  verbose : Int
  update_seed : Bool
  input_file : Option String
  key_slot : Int
  challenge : Option String
  challenge_rsp : Option String
  meta : Option String
  signature : Option String
  pub_key : Option String
  write_data : Option String
  address : Int
  bus : Option String

/-- The program state `parse_opt` acts on: the record behind `state->input`
and the process wide log level of libcryptoauth. -/
structure State where
  arguments : arguments
  log_level : LogLevel

/-- What `main.c` uses but does not define. -/
structure Env where
  /-- The data model of the platform. -/
  data_model : DataModel
  /-- The validator `is_hex_arg (arg, len)` of `cli_commands.c`. -/
  is_hex_arg : String → Nat → Bool
  /-- The implicit conversion of `arguments->address = address_arg`, from
  `long` to the type of the field `address`. -/
  address_conv : Int → Int

/-- Outcome of one call of `parse_opt`. -/
inductive Outcome where
  /-- `argp_usage` was called: the process has ended; the state is the one at
  the call. -/
  | usage (s : State)
  /-- `parse_opt` returned `code`. -/
  | ret (code : Int) (s : State)

/-! ## Keys -/

def KEY_a : Int := 97
def KEY_b : Int := 98
def KEY_c : Int := 99
def KEY_f : Int := 102
def KEY_k : Int := 107
def KEY_m : Int := 109
def KEY_q : Int := 113
def KEY_r : Int := 114
def KEY_s : Int := 115
def KEY_v : Int := 118
def KEY_w : Int := 119
def OPT_UPDATE_SEED : Int := 300
def OPT_SIGNATURE : Int := 301
def OPT_PUB_KEY : Int := 302
/-- `ARGP_KEY_ARG` of `<argp.h>`. -/
def ARGP_KEY_ARG : Int := 0
/-- `ARGP_KEY_END` of `<argp.h>` (`0x1000001`). -/
def ARGP_KEY_END : Int := 16777217
/-- `ARGP_ERR_UNKNOWN` of `<argp.h>`, which is `E2BIG`. -/
def ARGP_ERR_UNKNOWN : Int := 7

/-! ## `parse_opt` -/

/-- One hex-bearing option: `if (!is_hex_arg (arg, len)) argp_usage (state);
else <field> = arg;`. -/
def hex_option (env : Env) (arg : String) (len : Nat) (s : State)
    (store : arguments → arguments) : Outcome :=
  if env.is_hex_arg arg len = false then .usage s
  else .ret 0 { s with arguments := store s.arguments }

/-- The function `parse_opt (key, arg, state)` of `main.c`; `arg_num` is
`state->arg_num` and `s` holds `*state->input`. -/
def parse_opt (env : Env) (key : Int) (arg : String) (arg_num : Nat) (s : State) :
    Outcome :=
  if key = KEY_a then
    let address_arg := strtol env.data_model arg 16
    if 0 ≠ address_arg then
      .ret 0 { s with arguments :=
        { s.arguments with address := env.address_conv address_arg } }
    else .ret 0 s
  else if key = KEY_b then
    .ret 0 { s with arguments := { s.arguments with bus := some arg } }
  else if key = KEY_q ∨ key = KEY_s then
    .ret 0 { s with arguments := { s.arguments with silent := 1 } }
  else if key = KEY_v then
    .ret 0 { arguments := { s.arguments with verbose := 1 }, log_level := .DEBUG }
  else if key = KEY_f then
    .ret 0 { s with arguments := { s.arguments with input_file := some arg } }
  else if key = OPT_UPDATE_SEED then
    .ret 0 { s with arguments := { s.arguments with update_seed := true } }
  else if key = KEY_k then
    let slot := atoi env.data_model arg
    if slot < 0 ∨ slot > 15 then .usage s
    else .ret 0 { s with arguments := { s.arguments with key_slot := slot } }
  else if key = KEY_c then
    hex_option env arg 64 s (fun a => { a with challenge := some arg })
  else if key = OPT_SIGNATURE then
    hex_option env arg 128 s (fun a => { a with signature := some arg })
  else if key = OPT_PUB_KEY then
    hex_option env arg 130 s (fun a => { a with pub_key := some arg })
  else if key = KEY_w then
    hex_option env arg 64 s (fun a => { a with write_data := some arg })
  else if key = KEY_r then
    hex_option env arg 64 s (fun a => { a with challenge_rsp := some arg })
  else if key = KEY_m then
    hex_option env arg 26 s (fun a => { a with meta := some arg })
  else if key = ARGP_KEY_ARG then
    if h : arg_num ≥ NUM_ARGS then .usage s
    else .ret 0 { s with arguments := { s.arguments with
      args := Function.update s.arguments.args ⟨arg_num, Nat.lt_of_not_le h⟩ (some arg) } }
  else if key = ARGP_KEY_END then
    if arg_num < NUM_ARGS then .usage s
    else .ret 0 s
  else .ret ARGP_ERR_UNKNOWN s

/-! ## The validator -/

/-- `isxdigit` of `<ctype.h>`: one of `0-9`, `a-f`, `A-F`. -/
def isxdigit (c : Char) : Bool :=
  (48 ≤ c.toNat && c.toNat ≤ 57) || (97 ≤ c.toNat && c.toNat ≤ 102) ||
    (65 ≤ c.toNat && c.toNat ≤ 70)

/-- Modelled from the spec: the validator `is_hex_arg` of `cli_commands.c`,
which is not part of the sources at hand. It is true iff the length of the
string equals the expected number of characters and every character is a
hexadecimal digit. -/
def validate_hex (value : String) (expected_hex_char_count : Nat) : Bool :=
  value.length == expected_hex_char_count && value.data.all isxdigit

/-- The property the record keeps for a hex-bearing field: a field that is set
holds exactly `n` hexadecimal characters. -/
def hex_field (n : Nat) : Option String → Prop
  | none => True
  | some v => v.length = n ∧ ∀ c ∈ v.data, isxdigit c = true

/-- All six hex-bearing fields have their mandated length. -/
def hex_fields_ok (a : arguments) : Prop :=
  hex_field 64 a.challenge ∧ hex_field 64 a.challenge_rsp ∧ hex_field 64 a.write_data ∧
    hex_field 26 a.meta ∧ hex_field 128 a.signature ∧ hex_field 130 a.pub_key

/-! ## `argp_parse` and `main` -/

/-- The value of `state->arg_num` for the next callback: argp counts the
positional arguments the parser has accepted. -/
def next_arg_num (key code : Int) (arg_num : Nat) : Nat :=
  if key = ARGP_KEY_ARG ∧ code = 0 then arg_num + 1 else arg_num

/-- Result of `argp_parse`. -/
inductive ParseResult where
  /-- The process ended in `argp_usage`. -/
  | exited (s : State)
  /-- `argp_parse` returned to `main`. -/
  | parsed (s : State)

/-- The driver `argp_parse` of the C library, seen from the parser, on a
command line all of whose elements reach `parse_opt` (options of the table
`options` and positional words): the command line is the sequence of
callbacks `(key, arg)` it gives rise to, in order; `parse_opt` is called on
each with the current `arg_num`, and at the end once more with
`ARGP_KEY_END`. A call that ends in `argp_usage` ends the process. Keys that
take no argument get the empty string. The options of argp itself and unknown
options are treated by `argp_parse_argv_from`. -/
def argp_parse_from (env : Env) : List (Int × String) → Nat → State → ParseResult
  | [], arg_num, s =>
    match parse_opt env ARGP_KEY_END "" arg_num s with
    | .usage s1 => .exited s1
    | .ret _ s1 => .parsed s1
  | (key, arg) :: rest, arg_num, s =>
    match parse_opt env key arg arg_num s with
    | .usage s1 => .exited s1
    | .ret code s1 => argp_parse_from env rest (next_arg_num key code arg_num) s1

/-- The call `argp_parse (&argp, argc, argv, 0, 0, &arguments)`. -/
def argp_parse (env : Env) (cmdline : List (Int × String)) (s : State) : ParseResult :=
  argp_parse_from env cmdline 0 s

/-- The outcomes of the calls of `parse_opt` that take place during
`argp_parse`, in order; the last one is a usage error or the outcome of the
`ARGP_KEY_END` call. -/
def callbacks (env : Env) : List (Int × String) → Nat → State → List Outcome
  | [], arg_num, s => [parse_opt env ARGP_KEY_END "" arg_num s]
  | (key, arg) :: rest, arg_num, s =>
    match parse_opt env key arg arg_num s with
    | .usage s1 => [.usage s1]
    | .ret code s1 => .ret code s1 :: callbacks env rest (next_arg_num key code arg_num) s1

/-- Whether an outcome is a usage error. -/
def Outcome.is_usage : Outcome → Bool
  | .usage _ => true
  | .ret _ _ => false

/-- The callbacks of a command line made of positional words only. -/
def positional (words : List String) : List (Int × String) :=
  words.map (fun w => (ARGP_KEY_ARG, w))

/-- `argp_err_exit_status`, which is `EX_USAGE`. -/
def EX_USAGE : Int := 64

/-- What a run of `main` does that is visible from outside: the calls of
`dispatch` with their two arguments, and the exit status. -/
structure Run where
  dispatch_calls : List (Option String × arguments)
  exit_status : Int

/-- The exit status of a process that calls `exit (v)`: the low 8 bits of
`v`. -/
def exit_status_of (v : Int) : Int := v % 256

/-- The function `main` on a command line all of whose elements reach
`parse_opt`: `init_cli`, `argp_parse`, then
`exit (dispatch (arguments.args[0], &arguments))`. The state `init` is the one
`init_cli` leaves; `dispatch` is the function of `cli_commands.c`. -/
def main (env : Env) (dispatch : Option String → arguments → Int) (init : State)
    (cmdline : List (Int × String)) : Run :=
  match argp_parse env cmdline init with
  | .exited _ => { dispatch_calls := [], exit_status := EX_USAGE }
  | .parsed s =>
    let command := s.arguments.args ⟨0, by decide⟩
    { dispatch_calls := [(command, s.arguments)],
      exit_status := exit_status_of (dispatch command s.arguments) }

/-! ## `argp_parse` and `main` on a full command line -/

/-- An element of the command line, as `argp_parse` treats it when called with
flags 0 and with `argp_program_version` set, as `main.c` does. -/
inductive Item where
  /-- An option of the table `options`, or a positional word: `parse_opt` is
  called with its key and its argument. -/
  | callback (key : Int) (arg : String)
  /-- The option `--help` or `-?` of argp: the help text is printed and the
  process ends with status 0. -/
  | help
  /-- The option `--usage` of argp: the usage message is printed and the
  process ends with status 0. -/
  | usage_message
  /-- The option `--version` or `-V` of argp: the version is printed and the
  process ends with status 0. -/
  | version
  /-- An option that is not in the table, or an option whose argument is
  missing: argp reports it and ends the process with
  `argp_err_exit_status`. -/
  | unknown_option

/-- Result of `argp_parse` on a full command line. -/
inductive ArgvResult where
  /-- The process has ended inside `argp_parse` with the given status. -/
  | ended (status : Int) (s : State)
  /-- `argp_parse` returned to `main`. -/
  | returned (s : State)

/-- The driver `argp_parse` on a full command line, its elements in the order
argp treats them: an element for the parser gives a call of `parse_opt`, the
options of argp itself and an unknown option end the process, and after the
last element `parse_opt` is called with `ARGP_KEY_END`. The calls with the
keys `ARGP_KEY_INIT`, `ARGP_KEY_NO_ARGS`, `ARGP_KEY_SUCCESS`, `ARGP_KEY_ERROR`
and `ARGP_KEY_FINI` are left out: they fall in the `default` case, which
changes nothing. -/
def argp_parse_argv_from (env : Env) : List Item → Nat → State → ArgvResult
  | [], arg_num, s =>
    match parse_opt env ARGP_KEY_END "" arg_num s with
    | .usage s1 => .ended EX_USAGE s1
    | .ret _ s1 => .returned s1
  | .callback key arg :: rest, arg_num, s =>
    match parse_opt env key arg arg_num s with
    | .usage s1 => .ended EX_USAGE s1
    | .ret code s1 => argp_parse_argv_from env rest (next_arg_num key code arg_num) s1
  | .help :: _, _, s => .ended 0 s
  | .usage_message :: _, _, s => .ended 0 s
  | .version :: _, _, s => .ended 0 s
  | .unknown_option :: _, _, s => .ended EX_USAGE s

/-- The call `argp_parse (&argp, argc, argv, 0, 0, &arguments)` on a full
command line. -/
def argp_parse_argv (env : Env) (items : List Item) (s : State) : ArgvResult :=
  argp_parse_argv_from env items 0 s

/-- A command line all of whose elements reach `parse_opt`. -/
def callback_items (cmdline : List (Int × String)) : List Item :=
  cmdline.map (fun ev => Item.callback ev.1 ev.2)

/-- The function `main` on a full command line: `init_cli`, `argp_parse`,
then `exit (dispatch (arguments.args[0], &arguments))`. -/
def main_argv (env : Env) (dispatch : Option String → arguments → Int) (init : State)
    (items : List Item) : Run :=
  match argp_parse_argv env items init with
  | .ended status _ => { dispatch_calls := [], exit_status := status }
  | .returned s =>
    let command := s.arguments.args ⟨0, by decide⟩
    { dispatch_calls := [(command, s.arguments)],
      exit_status := exit_status_of (dispatch command s.arguments) }

/-! ## Sample values -/

/-- Conversion to `unsigned int`. -/
def to_unsigned_int (x : Int) : Int := x % 4294967296

/-- Conversion to `uint8_t`. -/
def to_uint8 (x : Int) : Int := x % 256

/-- A state with every pointer null, every flag clear and address `0x60`. -/
def blank_state : State :=
  { arguments :=
      { args := fun _ => none, silent := 0, verbose := 0, update_seed := false,
        input_file := none, key_slot := 0, challenge := none, challenge_rsp := none,
        meta := none, signature := none, pub_key := none, write_data := none,
        address := 96, bus := none },
    log_level := .INFO }

/-- The blank state in verbose mode: `verbose` set and log level `DEBUG`. -/
def verbose_state : State :=
  { arguments := { blank_state.arguments with verbose := 1 }, log_level := .DEBUG }

/-- An environment with the validator of the spec and an `unsigned int`
address field. -/
def env_unsigned_int : Env :=
  { data_model := .LP64, is_hex_arg := validate_hex, address_conv := to_unsigned_int }

/-- An environment with the validator of the spec and a `uint8_t` address
field. -/
def env_uint8 : Env :=
  { data_model := .LP64, is_hex_arg := validate_hex, address_conv := to_uint8 }

/-- A string of `n` characters `a`. -/
def hex_a (n : Nat) : String := String.mk (List.replicate n 'a')

/-- A public key argument of 130 hexadecimal characters with first byte
`05`. -/
def pub_key_05 : String := String.mk ('0' :: '5' :: List.replicate 128 'a')

/-! ## `parse_opt`, key by key -/

/-- The step functions, one for each `case` of the `switch`. -/
def step_a (env : Env) (arg : String) (s : State) : Outcome :=
  if 0 ≠ strtol env.data_model arg 16 then
    .ret 0 { s with arguments :=
      { s.arguments with address := env.address_conv (strtol env.data_model arg 16) } }
  else .ret 0 s

/-- The keys `parse_opt` has a `case` for. -/
def known_keys : List Int :=
  [KEY_a, KEY_b, KEY_q, KEY_s, KEY_v, KEY_f, OPT_UPDATE_SEED, KEY_k, KEY_c, OPT_SIGNATURE,
    OPT_PUB_KEY, KEY_w, KEY_r, KEY_m, ARGP_KEY_ARG, ARGP_KEY_END]

/-! ## Auxiliary notions for the statements -/

/-- The state after the command word `w` has been stored in `args[0]`. -/
def set_command (w : String) (s : State) : State :=
  { s with arguments := { s.arguments with
      args := Function.update s.arguments.args ⟨0, by decide⟩ (some w) } }

/-- Two records that differ at most in the `verbose` flag. -/
def same_up_to_verbose (a b : arguments) : Prop :=
  b = { a with verbose := b.verbose }

/-- One call of `parse_opt` after another: the second takes place only when
the first has returned. -/
def and_then (o : Outcome) (f : State → Outcome) : Outcome :=
  match o with
  | .usage s => .usage s
  | .ret _ s => f s

/-- The relation between the outcomes of the same call of `parse_opt` on two
states: both end in a usage error or both return, with the same code, and the
records differ at most in `verbose`. -/
def same_outcome_up_to_verbose : Outcome → Outcome → Prop
  | .usage s1, .usage t1 => same_up_to_verbose s1.arguments t1.arguments
  | .ret c s1, .ret d t1 => c = d ∧ same_up_to_verbose s1.arguments t1.arguments
  | _, _ => False

/-! ## Fields and effects -/

/-- The fields of the record; `args i` is the element `args[i]`. -/
inductive Field where
  | args (i : Nat)
  | silent
  | verbose
  | update_seed
  | input_file
  | key_slot
  | challenge
  | challenge_rsp
  | meta
  | signature
  | pub_key
  | write_data
  | address
  | bus
  deriving DecidableEq

/-- The field that belongs to a key: the one its `case` assigns to. The key
`ARGP_KEY_END` and the keys without a `case` have none. -/
def target_field (key : Int) (arg_num : Nat) : Option Field :=
  if key = KEY_a then some .address
  else if key = KEY_b then some .bus
  else if key = KEY_q ∨ key = KEY_s then some .silent
  else if key = KEY_v then some .verbose
  else if key = KEY_f then some .input_file
  else if key = OPT_UPDATE_SEED then some .update_seed
  else if key = KEY_k then some .key_slot
  else if key = KEY_c then some .challenge
  else if key = OPT_SIGNATURE then some .signature
  else if key = OPT_PUB_KEY then some .pub_key
  else if key = KEY_w then some .write_data
  else if key = KEY_r then some .challenge_rsp
  else if key = KEY_m then some .meta
  else if key = ARGP_KEY_ARG then some (.args arg_num)
  else none

/-- The record `b` has the value of `a` in every field other than `f`. -/
def unchanged_except (f : Option Field) (a b : arguments) : Prop :=
  (∀ i : Fin NUM_ARGS, f ≠ some (.args i.val) → b.args i = a.args i) ∧
  (f ≠ some .silent → b.silent = a.silent) ∧
  (f ≠ some .verbose → b.verbose = a.verbose) ∧
  (f ≠ some .update_seed → b.update_seed = a.update_seed) ∧
  (f ≠ some .input_file → b.input_file = a.input_file) ∧
  (f ≠ some .key_slot → b.key_slot = a.key_slot) ∧
  (f ≠ some .challenge → b.challenge = a.challenge) ∧
  (f ≠ some .challenge_rsp → b.challenge_rsp = a.challenge_rsp) ∧
  (f ≠ some .meta → b.meta = a.meta) ∧
  (f ≠ some .signature → b.signature = a.signature) ∧
  (f ≠ some .pub_key → b.pub_key = a.pub_key) ∧
  (f ≠ some .write_data → b.write_data = a.write_data) ∧
  (f ≠ some .address → b.address = a.address) ∧
  (f ≠ some .bus → b.bus = a.bus)

/-- What a call of `parse_opt` that returns does to the state: nothing, or one
assignment (`-v` sets the log level as well). -/
inductive Effect where
  | skip
  | set_arg (i : Fin NUM_ARGS) (v : String)
  | set_silent
  | set_verbose
  | set_update_seed
  | set_input_file (v : String)
  | set_key_slot (v : Int)
  | set_challenge (v : String)
  | set_challenge_rsp (v : String)
  | set_meta (v : String)
  | set_signature (v : String)
  | set_pub_key (v : String)
  | set_write_data (v : String)
  | set_address (v : Int)
  | set_bus (v : String)

/-- The state after an effect. -/
def Effect.apply : Effect → State → State
  | .skip, s => s
  | .set_arg i v, s =>
    { s with arguments := { s.arguments with
        args := Function.update s.arguments.args i (some v) } }
  | .set_silent, s => { s with arguments := { s.arguments with silent := 1 } }
  | .set_verbose, s =>
    { arguments := { s.arguments with verbose := 1 }, log_level := .DEBUG }
  | .set_update_seed, s => { s with arguments := { s.arguments with update_seed := true } }
  | .set_input_file v, s => { s with arguments := { s.arguments with input_file := some v } }
  | .set_key_slot v, s => { s with arguments := { s.arguments with key_slot := v } }
  | .set_challenge v, s => { s with arguments := { s.arguments with challenge := some v } }
  | .set_challenge_rsp v, s =>
    { s with arguments := { s.arguments with challenge_rsp := some v } }
  | .set_meta v, s => { s with arguments := { s.arguments with meta := some v } }
  | .set_signature v, s => { s with arguments := { s.arguments with signature := some v } }
  | .set_pub_key v, s => { s with arguments := { s.arguments with pub_key := some v } }
  | .set_write_data v, s => { s with arguments := { s.arguments with write_data := some v } }
  | .set_address v, s => { s with arguments := { s.arguments with address := v } }
  | .set_bus v, s => { s with arguments := { s.arguments with bus := some v } }

/-- The field an effect assigns to. -/
def Effect.field : Effect → Option Field
  | .skip => none
  | .set_arg i _ => some (.args i.val)
  | .set_silent => some .silent
  | .set_verbose => some .verbose
  | .set_update_seed => some .update_seed
  | .set_input_file _ => some .input_file
  | .set_key_slot _ => some .key_slot
  | .set_challenge _ => some .challenge
  | .set_challenge_rsp _ => some .challenge_rsp
  | .set_meta _ => some .meta
  | .set_signature _ => some .signature
  | .set_pub_key _ => some .pub_key
  | .set_write_data _ => some .write_data
  | .set_address _ => some .address
  | .set_bus _ => some .bus

/-- The state an outcome carries. -/
def Outcome.state : Outcome → State
  | .usage s => s
  | .ret _ s => s

/-- The code `parse_opt` returns for a key: 0 for a key with a `case`,
`ARGP_ERR_UNKNOWN` from the `default` case. -/
def return_code (key : Int) : Int :=
  if key ∈ known_keys then 0 else ARGP_ERR_UNKNOWN

/-! ## Decimal numbers at the head of an argument -/

/-- `isdigit` of `<ctype.h>`: one of `0-9`. -/
def isdigit (c : Char) : Bool := 48 ≤ c.toNat && c.toNat ≤ 57

/-- The value of a string of decimal digits. -/
def decimal_value (ds : List Char) : Nat :=
  ds.foldl (fun acc c => acc * 10 + (c.toNat - 48)) 0

/-- Whether an argument has no leading decimal number: after white space and
an optional sign it ends or goes on with a character that is not a decimal
digit. -/
def no_leading_number (arg : String) : Bool :=
  match (strtol_sign (arg.data.dropWhile isspace)).2 with
  | [] => true
  | c :: _ => !isdigit c

/-! ## Integer types of the `address` field -/

/-- The integer types of C the field `address` can have, by width and
signedness. -/
inductive CIntType where
  | i8
  | u8
  | i16
  | u16
  | i32
  | u32
  | i64
  | u64
  deriving DecidableEq, Repr

/-- The least value of an integer type. -/
def CIntType.min : CIntType → Int
  | .i8 => -128
  | .i16 => -32768
  | .i32 => -2147483648
  | .i64 => -9223372036854775808
  | .u8 => 0
  | .u16 => 0
  | .u32 => 0
  | .u64 => 0

/-- The greatest value of an integer type. -/
def CIntType.max : CIntType → Int
  | .i8 => 127
  | .u8 => 255
  | .i16 => 32767
  | .u16 => 65535
  | .i32 => 2147483647
  | .u32 => 4294967295
  | .i64 => 9223372036854775807
  | .u64 => 18446744073709551615

/-- Two to the width of an integer type. -/
def CIntType.modulus : CIntType → Int
  | .i8 => 256
  | .u8 => 256
  | .i16 => 65536
  | .u16 => 65536
  | .i32 => 4294967296
  | .u32 => 4294967296
  | .i64 => 18446744073709551616
  | .u64 => 18446744073709551616

/-- The conversion of an integer to an integer type: the value is reduced
modulo two to the width of the type into the range of the type. -/
def CIntType.convert (t : CIntType) (x : Int) : Int :=
  (x - t.min) % t.modulus + t.min

/-! ## Theorems -/

/-- Case `'a'`. -/
theorem parse_opt_a (env : Env) (arg : String) (arg_num : Nat) (s : State) :
    parse_opt env KEY_a arg arg_num s = step_a env arg s := by
  simp [parse_opt, step_a]

/-- Case `'b'`. -/
theorem parse_opt_b (env : Env) (arg : String) (arg_num : Nat) (s : State) :
    parse_opt env KEY_b arg arg_num s =
      .ret 0 { s with arguments := { s.arguments with bus := some arg } } := by
  simp [parse_opt, KEY_a, KEY_b]

/-- Case `'q'`. -/
theorem parse_opt_q (env : Env) (arg : String) (arg_num : Nat) (s : State) :
    parse_opt env KEY_q arg arg_num s =
      .ret 0 { s with arguments := { s.arguments with silent := 1 } } := by
  simp [parse_opt, KEY_a, KEY_b, KEY_q]

/-- Case `'s'`. -/
theorem parse_opt_s (env : Env) (arg : String) (arg_num : Nat) (s : State) :
    parse_opt env KEY_s arg arg_num s =
      .ret 0 { s with arguments := { s.arguments with silent := 1 } } := by
  simp [parse_opt, KEY_a, KEY_b, KEY_s]

/-- Case `'v'`. -/
theorem parse_opt_v (env : Env) (arg : String) (arg_num : Nat) (s : State) :
    parse_opt env KEY_v arg arg_num s =
      .ret 0 { arguments := { s.arguments with verbose := 1 }, log_level := .DEBUG } := by
  simp [parse_opt, KEY_a, KEY_b, KEY_q, KEY_s, KEY_v]

/-- Case `'f'`. -/
theorem parse_opt_f (env : Env) (arg : String) (arg_num : Nat) (s : State) :
    parse_opt env KEY_f arg arg_num s =
      .ret 0 { s with arguments := { s.arguments with input_file := some arg } } := by
  simp [parse_opt, KEY_a, KEY_b, KEY_q, KEY_s, KEY_v, KEY_f]

/-- Case `OPT_UPDATE_SEED`. -/
theorem parse_opt_update_seed (env : Env) (arg : String) (arg_num : Nat) (s : State) :
    parse_opt env OPT_UPDATE_SEED arg arg_num s =
      .ret 0 { s with arguments := { s.arguments with update_seed := true } } := by
  simp [parse_opt, KEY_a, KEY_b, KEY_q, KEY_s, KEY_v, KEY_f, OPT_UPDATE_SEED]

/-- Case `'k'`. -/
theorem parse_opt_k (env : Env) (arg : String) (arg_num : Nat) (s : State) :
    parse_opt env KEY_k arg arg_num s =
      (if atoi env.data_model arg < 0 ∨ atoi env.data_model arg > 15 then Outcome.usage s
       else Outcome.ret 0 { s with arguments :=
         { s.arguments with key_slot := atoi env.data_model arg } }) := by
  simp [parse_opt, KEY_k, KEY_a, KEY_b, KEY_q, KEY_s, KEY_v, KEY_f, OPT_UPDATE_SEED]

/-- Case `ARGP_KEY_ARG`. -/
theorem parse_opt_arg (env : Env) (arg : String) (arg_num : Nat) (s : State) :
    parse_opt env ARGP_KEY_ARG arg arg_num s =
      (if h : arg_num ≥ NUM_ARGS then .usage s
       else .ret 0 { s with arguments := { s.arguments with
         args := Function.update s.arguments.args ⟨arg_num, Nat.lt_of_not_le h⟩
           (some arg) } }) := by
  simp [parse_opt, KEY_a, KEY_b, KEY_c, KEY_f, KEY_k, KEY_m, KEY_q, KEY_r, KEY_s, KEY_v,
    KEY_w, OPT_UPDATE_SEED, OPT_SIGNATURE, OPT_PUB_KEY, ARGP_KEY_ARG]

/-- Case `ARGP_KEY_END`. -/
theorem parse_opt_end (env : Env) (arg : String) (arg_num : Nat) (s : State) :
    parse_opt env ARGP_KEY_END arg arg_num s =
      (if arg_num < NUM_ARGS then .usage s else .ret 0 s) := by
  simp [parse_opt, KEY_a, KEY_b, KEY_c, KEY_f, KEY_k, KEY_m, KEY_q, KEY_r, KEY_s, KEY_v,
    KEY_w, OPT_UPDATE_SEED, OPT_SIGNATURE, OPT_PUB_KEY, ARGP_KEY_ARG, ARGP_KEY_END]

/-- The `default` case. -/
theorem parse_opt_default (env : Env) (key : Int) (arg : String) (arg_num : Nat) (s : State)
    (h : key ∉ known_keys) :
    parse_opt env key arg arg_num s = .ret ARGP_ERR_UNKNOWN s := by
  simp only [known_keys, List.mem_cons, List.mem_singleton, not_or, List.not_mem_nil,
    or_false] at h
  obtain ⟨h1, h2, h3, h4, h5, h6, h7, h8, h9, h10, h11, h12, h13, h14, h15, h16⟩ := h
  unfold parse_opt
  rw [if_neg h1, if_neg h2, if_neg (not_or.2 ⟨h3, h4⟩), if_neg h5, if_neg h6, if_neg h7,
    if_neg h8, if_neg h9, if_neg h10, if_neg h11, if_neg h12, if_neg h13, if_neg h14,
    if_neg h15, if_neg h16]

/-! ## Claim C1 -/

/-- C1: for every argument of `-k`, `parse_opt` ends in a usage error, with
the record as it was, when `atoi` of the argument is below 0 or above 15, and
otherwise returns 0 with exactly that integer in `key_slot`; `"0"` and `"15"`
are stored as 0 and 15, `"-1"` and `"16"` end in a usage error and leave
`key_slot` as it was. -/
theorem C1_key_slot_range (env : Env) (arg : String) (arg_num : Nat) (s : State) :
    parse_opt env KEY_k arg arg_num s =
        (if atoi env.data_model arg < 0 ∨ atoi env.data_model arg > 15 then Outcome.usage s
         else Outcome.ret 0 { s with arguments :=
           { s.arguments with key_slot := atoi env.data_model arg } })
    ∧ parse_opt env KEY_k "0" arg_num s =
        Outcome.ret 0 { s with arguments := { s.arguments with key_slot := 0 } }
    ∧ parse_opt env KEY_k "15" arg_num s =
        Outcome.ret 0 { s with arguments := { s.arguments with key_slot := 15 } }
    ∧ parse_opt env KEY_k "-1" arg_num s = Outcome.usage s
    ∧ parse_opt env KEY_k "16" arg_num s = Outcome.usage s := by
  have h0 : atoi env.data_model "0" = 0 := by cases env.data_model <;> decide
  have h15 : atoi env.data_model "15" = 15 := by cases env.data_model <;> decide
  have hm1 : atoi env.data_model "-1" = -1 := by cases env.data_model <;> decide
  have h16 : atoi env.data_model "16" = 16 := by cases env.data_model <;> decide
  refine ⟨parse_opt_k env arg arg_num s, ?_, ?_, ?_, ?_⟩
  · rw [parse_opt_k]; simp [h0]
  · rw [parse_opt_k]; simp [h15]
  · rw [parse_opt_k]; simp [hm1]
  · rw [parse_opt_k]; simp [h16]

/-! ## Claims C2 to C4 -/

/-- The hex-bearing options, one by one. -/
theorem parse_opt_hex (env : Env) (arg : String) (arg_num : Nat) (s : State) :
    parse_opt env KEY_c arg arg_num s =
        hex_option env arg 64 s (fun a => { a with challenge := some arg })
    ∧ parse_opt env KEY_r arg arg_num s =
        hex_option env arg 64 s (fun a => { a with challenge_rsp := some arg })
    ∧ parse_opt env KEY_m arg arg_num s =
        hex_option env arg 26 s (fun a => { a with meta := some arg })
    ∧ parse_opt env OPT_SIGNATURE arg arg_num s =
        hex_option env arg 128 s (fun a => { a with signature := some arg })
    ∧ parse_opt env OPT_PUB_KEY arg arg_num s =
        hex_option env arg 130 s (fun a => { a with pub_key := some arg })
    ∧ parse_opt env KEY_w arg arg_num s =
        hex_option env arg 64 s (fun a => { a with write_data := some arg }) := by
  refine ⟨?_, ?_, ?_, ?_, ?_, ?_⟩ <;>
    simp [parse_opt, KEY_a, KEY_b, KEY_c, KEY_f, KEY_k, KEY_m, KEY_q, KEY_r, KEY_s, KEY_v,
      KEY_w, OPT_UPDATE_SEED, OPT_SIGNATURE, OPT_PUB_KEY]

/-- Case analysis on the key: a property of a step of `parse_opt` holds for
every key when it holds in each `case` of the `switch` and in the `default`
case. -/
theorem parse_opt_cases (env : Env) (arg : String) (arg_num : Nat) (s : State)
    (P : Int → Outcome → Prop)
    (h_a : P KEY_a (step_a env arg s))
    (h_b : P KEY_b (.ret 0 { s with arguments := { s.arguments with bus := some arg } }))
    (h_q : P KEY_q (.ret 0 { s with arguments := { s.arguments with silent := 1 } }))
    (h_s : P KEY_s (.ret 0 { s with arguments := { s.arguments with silent := 1 } }))
    (h_v : P KEY_v
      (.ret 0 { arguments := { s.arguments with verbose := 1 }, log_level := .DEBUG }))
    (h_f : P KEY_f
      (.ret 0 { s with arguments := { s.arguments with input_file := some arg } }))
    (h_u : P OPT_UPDATE_SEED
      (.ret 0 { s with arguments := { s.arguments with update_seed := true } }))
    (h_k : P KEY_k
      (if atoi env.data_model arg < 0 ∨ atoi env.data_model arg > 15 then Outcome.usage s
       else Outcome.ret 0 { s with arguments :=
         { s.arguments with key_slot := atoi env.data_model arg } }))
    (h_c : P KEY_c (hex_option env arg 64 s (fun a => { a with challenge := some arg })))
    (h_sig : P OPT_SIGNATURE
      (hex_option env arg 128 s (fun a => { a with signature := some arg })))
    (h_pub : P OPT_PUB_KEY
      (hex_option env arg 130 s (fun a => { a with pub_key := some arg })))
    (h_w : P KEY_w (hex_option env arg 64 s (fun a => { a with write_data := some arg })))
    (h_r : P KEY_r (hex_option env arg 64 s (fun a => { a with challenge_rsp := some arg })))
    (h_m : P KEY_m (hex_option env arg 26 s (fun a => { a with meta := some arg })))
    (h_arg : P ARGP_KEY_ARG
      (if h : arg_num ≥ NUM_ARGS then .usage s
       else .ret 0 { s with arguments := { s.arguments with
         args := Function.update s.arguments.args ⟨arg_num, Nat.lt_of_not_le h⟩
           (some arg) } }))
    (h_end : P ARGP_KEY_END (if arg_num < NUM_ARGS then .usage s else .ret 0 s))
    (h_default : ∀ key, key ∉ known_keys → P key (.ret ARGP_ERR_UNKNOWN s))
    (key : Int) : P key (parse_opt env key arg arg_num s) := by
  obtain ⟨hc, hr, hm, hs, hp, hw⟩ := parse_opt_hex env arg arg_num s
  by_cases hk : key ∈ known_keys
  · simp only [known_keys, List.mem_cons, List.mem_singleton, List.not_mem_nil,
      or_false] at hk
    rcases hk with
      rfl | rfl | rfl | rfl | rfl | rfl | rfl | rfl | rfl | rfl | rfl | rfl | rfl | rfl | rfl | rfl
    · rw [parse_opt_a]; exact h_a
    · rw [parse_opt_b]; exact h_b
    · rw [parse_opt_q]; exact h_q
    · rw [parse_opt_s]; exact h_s
    · rw [parse_opt_v]; exact h_v
    · rw [parse_opt_f]; exact h_f
    · rw [parse_opt_update_seed]; exact h_u
    · rw [parse_opt_k]; exact h_k
    · rw [hc]; exact h_c
    · rw [hs]; exact h_sig
    · rw [hp]; exact h_pub
    · rw [hw]; exact h_w
    · rw [hr]; exact h_r
    · rw [hm]; exact h_m
    · rw [parse_opt_arg]; exact h_arg
    · rw [parse_opt_end]; exact h_end
  · rw [parse_opt_default env key arg arg_num s hk]; exact h_default key hk

/-- C2: each of the six hex-bearing options asks the validator with the
mandated length (`-c` 64, `-r` 64, `-m` 26, `--signature` 128, `--public-key`
130, `-w` 64); when it accepts, `parse_opt` returns 0 and the field holds the
argument itself, and when it rejects, `parse_opt` ends in a usage error with
the record as it was. -/
theorem C2_hex_options (env : Env) (arg : String) (arg_num : Nat) (s : State) :
    parse_opt env KEY_c arg arg_num s =
        (if env.is_hex_arg arg 64 = true
         then Outcome.ret 0 { s with arguments := { s.arguments with challenge := some arg } }
         else Outcome.usage s)
    ∧ parse_opt env KEY_r arg arg_num s =
        (if env.is_hex_arg arg 64 = true
         then Outcome.ret 0
           { s with arguments := { s.arguments with challenge_rsp := some arg } }
         else Outcome.usage s)
    ∧ parse_opt env KEY_m arg arg_num s =
        (if env.is_hex_arg arg 26 = true
         then Outcome.ret 0 { s with arguments := { s.arguments with meta := some arg } }
         else Outcome.usage s)
    ∧ parse_opt env OPT_SIGNATURE arg arg_num s =
        (if env.is_hex_arg arg 128 = true
         then Outcome.ret 0 { s with arguments := { s.arguments with signature := some arg } }
         else Outcome.usage s)
    ∧ parse_opt env OPT_PUB_KEY arg arg_num s =
        (if env.is_hex_arg arg 130 = true
         then Outcome.ret 0 { s with arguments := { s.arguments with pub_key := some arg } }
         else Outcome.usage s)
    ∧ parse_opt env KEY_w arg arg_num s =
        (if env.is_hex_arg arg 64 = true
         then Outcome.ret 0 { s with arguments := { s.arguments with write_data := some arg } }
         else Outcome.usage s) := by
  obtain ⟨hc, hr, hm, hs, hp, hw⟩ := parse_opt_hex env arg arg_num s
  rw [hc, hr, hm, hs, hp, hw]
  refine ⟨?_, ?_, ?_, ?_, ?_, ?_⟩ <;> unfold hex_option <;>
    cases env.is_hex_arg arg _ <;> simp

/-- The sample public key has 130 hexadecimal characters and starts with
`05`. -/
theorem pub_key_05_shape :
    pub_key_05.length = 130 ∧ pub_key_05.data.all isxdigit = true ∧
      pub_key_05.data.take 2 = ['0', '5'] ∧ validate_hex pub_key_05 130 = true := by
  set_option maxRecDepth 100000 in decide

/-- C3, as stated, fails: with the validator of the spec, a public key of 130
hexadecimal characters that starts with `05` is not rejected; `parse_opt`
returns 0 and stores it in `pub_key`. -/
theorem C3_counterexample :
    pub_key_05.length = 130 ∧ pub_key_05.data.all isxdigit = true ∧
      pub_key_05.data.take 2 = ['0', '5'] ∧
      parse_opt env_unsigned_int OPT_PUB_KEY pub_key_05 0 blank_state =
        Outcome.ret 0 { blank_state with
          arguments := { blank_state.arguments with pub_key := some pub_key_05 } } := by
  refine ⟨pub_key_05_shape.1, pub_key_05_shape.2.1, pub_key_05_shape.2.2.1, ?_⟩
  rw [(parse_opt_hex env_unsigned_int pub_key_05 0 blank_state).2.2.2.2.1]
  simp [hex_option, env_unsigned_int, pub_key_05_shape.2.2.2]

/-- The validator of the spec is true exactly on strings of the expected
length made of hexadecimal digits. -/
theorem validate_hex_iff (v : String) (n : Nat) :
    validate_hex v n = true ↔ (v.length = n ∧ ∀ c ∈ v.data, isxdigit c = true) := by
  simp [validate_hex, List.all_eq_true]

/-- What a hex-bearing option that returns has done. -/
theorem hex_option_ret (env : Env) (arg : String) (len : Nat) (s s1 : State)
    (store : arguments → arguments) (code : Int)
    (h : hex_option env arg len s store = Outcome.ret code s1) :
    env.is_hex_arg arg len = true ∧ code = 0 ∧
      s1 = { s with arguments := store s.arguments } := by
  unfold hex_option at h
  cases hb : env.is_hex_arg arg len
  · simp [hb] at h
  · simp [hb] at h
    exact ⟨rfl, h.1.symm, h.2.symm⟩

/-- C3, amended: with the validator of the spec, `--public-key` is accepted
and stored exactly when the argument has 130 characters, all of them
hexadecimal digits, whatever its first byte; any other argument ends in a
usage error with the record as it was. -/
theorem C3_public_key_no_tag_check (dm : DataModel) (conv : Int → Int) (arg : String)
    (arg_num : Nat) (s : State) :
    parse_opt { data_model := dm, is_hex_arg := validate_hex, address_conv := conv }
        OPT_PUB_KEY arg arg_num s =
      (if arg.length = 130 ∧ ∀ c ∈ arg.data, isxdigit c = true
       then Outcome.ret 0 { s with arguments := { s.arguments with pub_key := some arg } }
       else Outcome.usage s) := by
  rw [(parse_opt_hex _ arg arg_num s).2.2.2.2.1]
  by_cases h : arg.length = 130 ∧ ∀ c ∈ arg.data, isxdigit c = true
  · have hv : validate_hex arg 130 = true := (validate_hex_iff arg 130).2 h
    rw [if_pos h]
    simp [hex_option, hv]
  · have hv : validate_hex arg 130 = false := by
      cases hb : validate_hex arg 130
      · rfl
      · exact absurd ((validate_hex_iff arg 130).1 hb) h
    rw [if_neg h]
    simp [hex_option, hv]

/-- C4: when the validator is true exactly on the strings of the expected
length made of hexadecimal digits, every step of `parse_opt` that returns
(does not end in a usage error) keeps the property that each of `challenge`,
`challenge_rsp`, `write_data` (64), `meta` (26), `signature` (128) and
`pub_key` (130), when set, holds exactly that many hexadecimal characters. -/
theorem C4_hex_fields_invariant (env : Env) (key : Int) (arg : String) (arg_num : Nat)
    (s s1 : State) (code : Int)
    (hv : ∀ v n, env.is_hex_arg v n = true ↔ (v.length = n ∧ ∀ c ∈ v.data, isxdigit c = true))
    (hinv : hex_fields_ok s.arguments)
    (hstep : parse_opt env key arg arg_num s = Outcome.ret code s1) :
    hex_fields_ok s1.arguments := by
  have key_step : ∀ o, parse_opt env key arg arg_num s = o →
      ∀ code s1, o = Outcome.ret code s1 → hex_fields_ok s1.arguments := by
    intro o ho
    rw [← ho]
    refine parse_opt_cases env arg arg_num s
      (fun _ o => ∀ code s1, o = Outcome.ret code s1 → hex_fields_ok s1.arguments)
      ?h_a ?h_b ?h_q ?h_s ?h_v ?h_f ?h_u ?h_k ?h_c ?h_sig ?h_pub ?h_w ?h_r ?h_m ?h_arg ?h_end
      ?h_default key
    case h_a =>
      intro code s1 h
      unfold step_a at h
      split_ifs at h <;> simp only [Outcome.ret.injEq] at h <;> obtain ⟨-, rfl⟩ := h <;>
        exact hinv
    case h_k =>
      intro code s1 h
      split_ifs at h
      simp only [Outcome.ret.injEq] at h
      obtain ⟨-, rfl⟩ := h
      exact hinv
    case h_arg =>
      intro code s1 h
      split_ifs at h
      simp only [Outcome.ret.injEq] at h
      obtain ⟨-, rfl⟩ := h
      exact hinv
    case h_end =>
      intro code s1 h
      split_ifs at h
      simp only [Outcome.ret.injEq] at h
      obtain ⟨-, rfl⟩ := h
      exact hinv
    case h_default =>
      intro _ _ code s1 h
      simp only [Outcome.ret.injEq] at h
      obtain ⟨-, rfl⟩ := h
      exact hinv
    all_goals
      intro code s1 h
      obtain ⟨h1, h2, h3, h4, h5, h6⟩ := hinv
      first
        | (simp only [Outcome.ret.injEq] at h
           obtain ⟨-, rfl⟩ := h
           exact ⟨h1, h2, h3, h4, h5, h6⟩)
        | (obtain ⟨hx, -, rfl⟩ := hex_option_ret _ _ _ _ _ _ _ h
           have hx1 := (hv _ _).1 hx
           first
             | exact ⟨hx1, h2, h3, h4, h5, h6⟩
             | exact ⟨h1, hx1, h3, h4, h5, h6⟩
             | exact ⟨h1, h2, hx1, h4, h5, h6⟩
             | exact ⟨h1, h2, h3, hx1, h5, h6⟩
             | exact ⟨h1, h2, h3, h4, hx1, h6⟩
             | exact ⟨h1, h2, h3, h4, h5, hx1⟩)
  exact key_step _ rfl code s1 hstep

/-- A witness of C4: `-c` with 64 hexadecimal characters on the blank state. -/
theorem C4_hex_fields_invariant_witness :
    hex_fields_ok
      ({ blank_state with arguments :=
          { blank_state.arguments with challenge := some (hex_a 64) } } : State).arguments :=
  C4_hex_fields_invariant env_unsigned_int KEY_c (hex_a 64) 0 blank_state _ 0
    (fun v n => validate_hex_iff v n)
    (by simp [hex_fields_ok, hex_field, blank_state])
    (by
      rw [(parse_opt_hex env_unsigned_int (hex_a 64) 0 blank_state).1]
      have h : validate_hex (hex_a 64) 64 = true := by decide
      simp [hex_option, env_unsigned_int, h])

/-! ## Claim C5 -/

/-- C5: for a command line of positional words only, `argp_parse` returns iff
there is exactly one word, and then `args[0]` holds it; with no word the
`ARGP_KEY_END` call ends in a usage error; with two or more words the first is
stored and the call for the second ends in a usage error without storing
it. -/
theorem C5_exactly_one_positional (env : Env) (s : State) (words : List String) :
    ((∃ s1, argp_parse env (positional words) s = .parsed s1) ↔ words.length = 1)
    ∧ (∀ w, argp_parse env (positional [w]) s = .parsed (set_command w s)
          ∧ (set_command w s).arguments.args ⟨0, by decide⟩ = some w)
    ∧ callbacks env (positional []) 0 s = [.usage s]
    ∧ (∀ w1 w2 rest, callbacks env (positional (w1 :: w2 :: rest)) 0 s =
          [.ret 0 (set_command w1 s), .usage (set_command w1 s)]
        ∧ argp_parse env (positional (w1 :: w2 :: rest)) s = .exited (set_command w1 s)) := by
  have h0 : argp_parse env (positional []) s = .exited s := by
    simp [argp_parse, argp_parse_from, positional, parse_opt_end, NUM_ARGS]
  have h1 : ∀ w, argp_parse env (positional [w]) s = .parsed (set_command w s) := by
    intro w
    simp [argp_parse, argp_parse_from, positional, parse_opt_end, parse_opt_arg, NUM_ARGS,
      next_arg_num, set_command]
  have h2 : ∀ w1 w2 rest,
      argp_parse env (positional (w1 :: w2 :: rest)) s = .exited (set_command w1 s) := by
    intro w1 w2 rest
    simp [argp_parse, argp_parse_from, positional, parse_opt_arg, NUM_ARGS,
      next_arg_num, set_command]
  refine ⟨?_, ?_, ?_, ?_⟩
  · rcases words with _ | ⟨w1, _ | ⟨w2, rest⟩⟩
    · simp [h0]
    · simp [h1]
    · simp [h2]
  · intro w
    exact ⟨h1 w, by simp [set_command]⟩
  · simp [callbacks, positional, parse_opt_end, NUM_ARGS]
  · intro w1 w2 rest
    refine ⟨?_, h2 w1 w2 rest⟩
    simp [callbacks, positional, parse_opt_arg, NUM_ARGS, next_arg_num, set_command]

/-! ## Claim C6 -/

/-- The result of `argp_parse` is read off the last callback: the process ends
iff some callback ends in a usage error, and otherwise every element of the
command line and the `ARGP_KEY_END` check have been processed. -/
theorem argp_parse_from_callbacks (env : Env) (cmdline : List (Int × String)) :
    ∀ (arg_num : Nat) (s : State),
      ((callbacks env cmdline arg_num s).any Outcome.is_usage = true ∧
        ∃ s1, argp_parse_from env cmdline arg_num s = .exited s1)
      ∨ ((callbacks env cmdline arg_num s).all (fun o => !o.is_usage) = true ∧
        (callbacks env cmdline arg_num s).length = cmdline.length + 1 ∧
        ∃ s1, argp_parse_from env cmdline arg_num s = .parsed s1) := by
  induction cmdline with
  | nil =>
    intro arg_num s
    cases h : parse_opt env ARGP_KEY_END "" arg_num s with
    | usage s1 => left; simp [callbacks, argp_parse_from, h, Outcome.is_usage]
    | ret c s1 => right; simp [callbacks, argp_parse_from, h, Outcome.is_usage]
  | cons ev rest ih =>
    intro arg_num s
    obtain ⟨key, arg⟩ := ev
    cases h : parse_opt env key arg arg_num s with
    | usage s1 => left; simp [callbacks, argp_parse_from, h, Outcome.is_usage]
    | ret c s1 =>
      rcases ih (next_arg_num key c arg_num) s1 with ⟨h1, h2⟩ | ⟨h1, h2, h3⟩
      · left
        refine ⟨?_, ?_⟩
        · simp only [callbacks, h, List.any_cons, h1, Bool.or_true]
        · simpa only [argp_parse_from, h] using h2
      · right
        refine ⟨?_, ?_, ?_⟩
        · simp only [callbacks, h, List.all_cons, h1, Bool.and_true]
          rfl
        · simp only [callbacks, h, List.length_cons, h2]
        · simpa only [argp_parse_from, h] using h3

/-- C6: in every run of `main`, either some call of `parse_opt` ends in a
usage error, and then `dispatch` is not called at all and the exit status is
that of a usage error; or no call does, all elements of the command line and
the `ARGP_KEY_END` check have been processed, and `dispatch` is called once.
In particular there is no call of `dispatch` for `verify` with a signature of
127 characters, for key slot 16, and for no or two command words. -/
theorem C6_no_dispatch_after_usage_error (env : Env)
    (dispatch : Option String → arguments → Int) (init : State)
    (cmdline : List (Int × String)) :
    (((callbacks env cmdline 0 init).any Outcome.is_usage = true ∧
        (main env dispatch init cmdline).dispatch_calls = [] ∧
        (main env dispatch init cmdline).exit_status = EX_USAGE)
      ∨ ((callbacks env cmdline 0 init).all (fun o => !o.is_usage) = true ∧
        (callbacks env cmdline 0 init).length = cmdline.length + 1 ∧
        (main env dispatch init cmdline).dispatch_calls.length = 1))
    ∧ (main env_unsigned_int dispatch init
        [(OPT_SIGNATURE, hex_a 127), (ARGP_KEY_ARG, "verify")]).dispatch_calls = []
    ∧ (main env dispatch init [(KEY_k, "16"), (ARGP_KEY_ARG, "sign")]).dispatch_calls = []
    ∧ (main env dispatch init []).dispatch_calls = []
    ∧ (main env dispatch init
        [(ARGP_KEY_ARG, "sign"), (ARGP_KEY_ARG, "verify")]).dispatch_calls = [] := by
  refine ⟨?_, ?_, ?_, ?_, ?_⟩
  · rcases argp_parse_from_callbacks env cmdline 0 init with ⟨h1, s1, h2⟩ | ⟨h1, h2, s1, h3⟩
    · left
      exact ⟨h1, by simp [main, argp_parse, h2], by simp [main, argp_parse, h2]⟩
    · right
      exact ⟨h1, h2, by simp [main, argp_parse, h3]⟩
  · have hv : validate_hex (hex_a 127) 128 = false := by
      set_option maxRecDepth 100000 in decide
    simp [main, argp_parse, argp_parse_from, (parse_opt_hex _ _ _ _).2.2.2.1, hex_option,
      env_unsigned_int, hv]
  · have h16 : atoi env.data_model "16" = 16 := by cases env.data_model <;> decide
    simp [main, argp_parse, argp_parse_from, parse_opt_k, h16]
  · simp [main, argp_parse, argp_parse_from, parse_opt_end, NUM_ARGS]
  · simp [main, argp_parse, argp_parse_from, parse_opt_arg, NUM_ARGS, next_arg_num]

/-! ## Claims C7 and C9 -/

/-- C7, as stated, fails: `parse_opt` makes no range check on the address. The
argument `1ff` has the value 511; with an `unsigned int` field the address
becomes 511, above `0xFF`, and with a `uint8_t` field the value is not left
out either, the address `0x60` is overwritten with 255. A negative argument
is stored as well. -/
theorem C7_counterexample :
    strtol .LP64 "1ff" 16 = 511
    ∧ parse_opt env_unsigned_int KEY_a "1ff" 0 blank_state =
        .ret 0 { blank_state with arguments := { blank_state.arguments with address := 511 } }
    ∧ ¬ ((511 : Int) ≤ 255)
    ∧ blank_state.arguments.address = 96
    ∧ parse_opt env_uint8 KEY_a "1ff" 0 blank_state =
        .ret 0 { blank_state with arguments := { blank_state.arguments with address := 255 } }
    ∧ strtol .LP64 "-1" 16 = -1
    ∧ parse_opt env_unsigned_int KEY_a "-1" 0 blank_state =
        .ret 0 { blank_state with
          arguments := { blank_state.arguments with address := 4294967295 } } := by
  have h1 : strtol .LP64 "1ff" 16 = 511 := by decide
  have h2 : strtol .LP64 "-1" 16 = -1 := by decide
  refine ⟨h1, ?_, by decide, rfl, ?_, h2, ?_⟩
  · simp [parse_opt_a, step_a, env_unsigned_int, h1, to_unsigned_int]
  · simp [parse_opt_a, step_a, env_uint8, h1, to_uint8]
  · simp [parse_opt_a, step_a, env_unsigned_int, h2, to_unsigned_int]

/-- C7, amended: when the address held before is within `[0, 0xFF]`, the value
of the argument is within `[0, 0xFF]` and is left as it is by the conversion
to the type of the field, `parse_opt` returns 0 and the address held after is
within `[0, 0xFF]`: the value of the argument, or the previous address when
that value is 0. -/
theorem C7_address_range_of_argument (env : Env) (arg : String) (arg_num : Nat) (s : State)
    (hs : 0 ≤ s.arguments.address ∧ s.arguments.address ≤ 255)
    (ha : 0 ≤ strtol env.data_model arg 16 ∧ strtol env.data_model arg 16 ≤ 255)
    (hc : env.address_conv (strtol env.data_model arg 16) = strtol env.data_model arg 16) :
    ∃ s1, parse_opt env KEY_a arg arg_num s = .ret 0 s1 ∧
      0 ≤ s1.arguments.address ∧ s1.arguments.address ≤ 255 ∧
      s1.arguments.address =
        (if strtol env.data_model arg 16 = 0 then s.arguments.address
         else strtol env.data_model arg 16) := by
  rw [parse_opt_a]
  unfold step_a
  by_cases h : strtol env.data_model arg 16 = 0
  · exact ⟨s, by simp [h], hs.1, hs.2, by simp [h]⟩
  · have h0 : (0 : Int) ≠ strtol env.data_model arg 16 := fun e => h e.symm
    refine ⟨_, by rw [if_pos h0], ?_, ?_, ?_⟩
    · simp only [hc]; exact ha.1
    · simp only [hc]; exact ha.2
    · simp only [hc, if_neg h]

/-- A witness of C7, amended: `-a 61` on the blank state. -/
theorem C7_address_range_of_argument_witness :
    ∃ s1, parse_opt env_unsigned_int KEY_a "61" 0 blank_state = .ret 0 s1 ∧
      0 ≤ s1.arguments.address ∧ s1.arguments.address ≤ 255 ∧
      s1.arguments.address =
        (if strtol env_unsigned_int.data_model "61" 16 = 0 then blank_state.arguments.address
         else strtol env_unsigned_int.data_model "61" 16) :=
  C7_address_range_of_argument env_unsigned_int "61" 0 blank_state (by decide) (by decide)
    (by decide)

/-- Case `'a'` in full: a value of 0 leaves the state as it was, any other
value is assigned to `address` through the conversion of the assignment; the
call returns 0 in both cases. -/
theorem parse_opt_a_zero_or_assign (env : Env) (arg : String) (arg_num : Nat) (s : State) :
    parse_opt env KEY_a arg arg_num s =
      (if strtol env.data_model arg 16 = 0 then Outcome.ret 0 s
       else Outcome.ret 0 { s with arguments := { s.arguments with
         address := env.address_conv (strtol env.data_model arg 16) } }) := by
  rw [parse_opt_a]
  unfold step_a
  by_cases h : strtol env.data_model arg 16 = 0
  · simp [h]
  · have h0 : (0 : Int) ≠ strtol env.data_model arg 16 := fun e => h e.symm
    rw [if_pos h0, if_neg h]

/-- A value in the range of an integer type is left as it is by the
conversion to that type. -/
theorem convert_of_representable (t : CIntType) (x : Int) (h1 : t.min ≤ x) (h2 : x ≤ t.max) :
    t.convert x = x := by
  unfold CIntType.convert
  cases t <;> simp only [CIntType.min, CIntType.max, CIntType.modulus] at h1 h2 ⊢ <;> omega

/-- The sample conversions are the conversions to `u32` and to `u8`. -/
theorem sample_conversions :
    to_unsigned_int = CIntType.u32.convert ∧ to_uint8 = CIntType.u8.convert := by
  refine ⟨?_, ?_⟩ <;> funext x <;>
    simp only [to_unsigned_int, to_uint8, CIntType.convert, CIntType.min,
      CIntType.modulus] <;>
    omega

/-- C9, as stated, fails in its second half: the value of a non-zero argument
is assigned to `address`, and the assignment converts it to the type of the
field. With a `uint8_t` field `-a 1ff` (value 511) leaves 255, and with an
`unsigned int` field `-a 100000000` (value 4294967296) leaves 0. -/
theorem C9_counterexample :
    strtol .LP64 "1ff" 16 = 511
    ∧ parse_opt env_uint8 KEY_a "1ff" 0 blank_state =
        .ret 0 { blank_state with arguments := { blank_state.arguments with address := 255 } }
    ∧ (255 : Int) ≠ 511
    ∧ strtol .LP64 "100000000" 16 = 4294967296
    ∧ parse_opt env_unsigned_int KEY_a "100000000" 0 blank_state =
        .ret 0 { blank_state with arguments := { blank_state.arguments with address := 0 } }
    ∧ (0 : Int) ≠ 4294967296 := by
  have h1 : strtol .LP64 "1ff" 16 = 511 := by decide
  have h2 : strtol .LP64 "100000000" 16 = 4294967296 := by decide
  refine ⟨h1, ?_, by decide, h2, ?_, by decide⟩
  · simp [parse_opt_a, step_a, env_uint8, h1, to_uint8]
  · simp [parse_opt_a, step_a, env_unsigned_int, h2, to_unsigned_int]

/-- C9, amended: with `address` of the integer type `t`, for every argument of
`-a`: when its `strtol` value in base 16 is 0 the state is left as it was and
`parse_opt` returns 0; otherwise `parse_opt` returns 0 and `address` holds the
value converted to `t`, which is the value itself when `t` can represent it.
There is no usage error. The arguments `0`, `00`, `zz` and the empty string
have the value 0; `61` has the value `0x61`. -/
theorem C9_address_zero_or_converted_value (env : Env) (t : CIntType) (arg : String)
    (arg_num : Nat) (s : State) (ht : env.address_conv = t.convert) :
    parse_opt env KEY_a arg arg_num s =
        (if strtol env.data_model arg 16 = 0 then Outcome.ret 0 s
         else Outcome.ret 0 { s with arguments := { s.arguments with
           address := t.convert (strtol env.data_model arg 16) } })
    ∧ (strtol env.data_model arg 16 ≠ 0 → t.min ≤ strtol env.data_model arg 16 →
        strtol env.data_model arg 16 ≤ t.max →
        parse_opt env KEY_a arg arg_num s =
          Outcome.ret 0 { s with arguments := { s.arguments with
            address := strtol env.data_model arg 16 } })
    ∧ parse_opt env KEY_a "0" arg_num s = .ret 0 s
    ∧ parse_opt env KEY_a "00" arg_num s = .ret 0 s
    ∧ parse_opt env KEY_a "zz" arg_num s = .ret 0 s
    ∧ parse_opt env KEY_a "" arg_num s = .ret 0 s
    ∧ parse_opt env KEY_a "61" arg_num s =
        .ret 0 { s with arguments := { s.arguments with address := 97 } } := by
  have hgen : ∀ a, parse_opt env KEY_a a arg_num s =
      (if strtol env.data_model a 16 = 0 then Outcome.ret 0 s
       else Outcome.ret 0 { s with arguments := { s.arguments with
         address := t.convert (strtol env.data_model a 16) } }) := by
    intro a
    rw [parse_opt_a_zero_or_assign, ht]
  have z1 : strtol env.data_model "0" 16 = 0 := by cases env.data_model <;> decide
  have z2 : strtol env.data_model "00" 16 = 0 := by cases env.data_model <;> decide
  have z3 : strtol env.data_model "zz" 16 = 0 := by cases env.data_model <;> decide
  have z4 : strtol env.data_model "" 16 = 0 := by cases env.data_model <;> decide
  have z5 : strtol env.data_model "61" 16 = 97 := by cases env.data_model <;> decide
  have c97 : t.convert 97 = 97 :=
    convert_of_representable t 97 (by cases t <;> decide) (by cases t <;> decide)
  refine ⟨hgen arg, ?_, ?_, ?_, ?_, ?_, ?_⟩
  · intro hne hmin hmax
    rw [hgen, if_neg hne, convert_of_representable t _ hmin hmax]
  · rw [hgen, if_pos z1]
  · rw [hgen, if_pos z2]
  · rw [hgen, if_pos z3]
  · rw [hgen, if_pos z4]
  · rw [hgen, z5, c97]; simp

/-- A witness of C9, amended: `-a 1ff` with an `unsigned int` field. -/
theorem C9_address_zero_or_converted_value_witness :
    env_unsigned_int.address_conv = CIntType.u32.convert
    ∧ parse_opt env_unsigned_int KEY_a "1ff" 0 blank_state =
        (if strtol env_unsigned_int.data_model "1ff" 16 = 0 then Outcome.ret 0 blank_state
         else Outcome.ret 0 { blank_state with arguments := { blank_state.arguments with
           address := CIntType.u32.convert (strtol env_unsigned_int.data_model "1ff" 16) } })
    ∧ CIntType.u32.convert (strtol env_unsigned_int.data_model "1ff" 16) = 511 :=
  ⟨sample_conversions.1,
    (C9_address_zero_or_converted_value env_unsigned_int .u32 "1ff" 0 blank_state
      sample_conversions.1).1,
    by decide⟩

/-! ## Claim C8 -/

/-- A hex-bearing option on two states whose records differ at most in
`verbose`, for a store that does not touch `verbose`. -/
theorem hex_option_up_to_verbose (env : Env) (arg : String) (len : Nat) (s t : State)
    (store : arguments → arguments)
    (hstore : ∀ a b, same_up_to_verbose a b → same_up_to_verbose (store a) (store b))
    (h : same_up_to_verbose s.arguments t.arguments) :
    same_outcome_up_to_verbose (hex_option env arg len s store)
      (hex_option env arg len t store) := by
  unfold hex_option
  cases env.is_hex_arg arg len
  · simpa [same_outcome_up_to_verbose] using h
  · simpa [same_outcome_up_to_verbose] using hstore _ _ h

/-- C8: on two states whose records differ at most in the `verbose` flag (the
log levels may differ too), the same call of `parse_opt` ends in a usage error
on both or on neither, returns the same code, and leaves records that again
differ at most in `verbose`. -/
theorem C8_verbose_does_not_change_errors (env : Env) (key : Int) (arg : String)
    (arg_num : Nat) (s t : State) (h : same_up_to_verbose s.arguments t.arguments) :
    same_outcome_up_to_verbose (parse_opt env key arg arg_num s)
      (parse_opt env key arg arg_num t) := by
  have hex : ∀ (len : Nat) (store : arguments → arguments),
      (∀ a b, same_up_to_verbose a b → same_up_to_verbose (store a) (store b)) →
      same_outcome_up_to_verbose (hex_option env arg len s store)
        (hex_option env arg len t store) :=
    fun len store hstore => hex_option_up_to_verbose env arg len s t store hstore h
  have key_step : ∀ o, parse_opt env key arg arg_num t = o →
      same_outcome_up_to_verbose (parse_opt env key arg arg_num s) o := by
    intro o ho
    refine parse_opt_cases env arg arg_num s
      (fun k o1 => ∀ o2, parse_opt env k arg arg_num t = o2 →
        same_outcome_up_to_verbose o1 o2)
      ?h_a ?h_b ?h_q ?h_s ?h_v ?h_f ?h_u ?h_k ?h_c ?h_sig ?h_pub ?h_w ?h_r ?h_m ?h_arg ?h_end
      ?h_default key o ho
    case h_a =>
      intro o2 h2
      rw [parse_opt_a] at h2
      subst h2
      unfold step_a
      unfold same_up_to_verbose at h
      split_ifs <;> simp only [same_outcome_up_to_verbose, same_up_to_verbose, true_and]
      · rw [h]
      · exact h
    case h_b =>
      intro o2 h2
      rw [parse_opt_b] at h2
      subst h2
      unfold same_up_to_verbose at h
      simp only [same_outcome_up_to_verbose, same_up_to_verbose, true_and]
      rw [h]
    case h_q =>
      intro o2 h2
      rw [parse_opt_q] at h2
      subst h2
      unfold same_up_to_verbose at h
      simp only [same_outcome_up_to_verbose, same_up_to_verbose, true_and]
      rw [h]
    case h_s =>
      intro o2 h2
      rw [parse_opt_s] at h2
      subst h2
      unfold same_up_to_verbose at h
      simp only [same_outcome_up_to_verbose, same_up_to_verbose, true_and]
      rw [h]
    case h_v =>
      intro o2 h2
      rw [parse_opt_v] at h2
      subst h2
      unfold same_up_to_verbose at h
      simp only [same_outcome_up_to_verbose, same_up_to_verbose, true_and]
      rw [h]
    case h_f =>
      intro o2 h2
      rw [parse_opt_f] at h2
      subst h2
      unfold same_up_to_verbose at h
      simp only [same_outcome_up_to_verbose, same_up_to_verbose, true_and]
      rw [h]
    case h_u =>
      intro o2 h2
      rw [parse_opt_update_seed] at h2
      subst h2
      unfold same_up_to_verbose at h
      simp only [same_outcome_up_to_verbose, same_up_to_verbose, true_and]
      rw [h]
    case h_k =>
      intro o2 h2
      rw [parse_opt_k] at h2
      subst h2
      unfold same_up_to_verbose at h
      split_ifs <;> simp only [same_outcome_up_to_verbose, same_up_to_verbose, true_and]
      · exact h
      · rw [h]
    case h_c =>
      intro o2 h2
      rw [(parse_opt_hex env arg arg_num t).1] at h2
      subst h2
      exact hex 64 _ (fun a b hab => by unfold same_up_to_verbose at hab ⊢; rw [hab])
    case h_sig =>
      intro o2 h2
      rw [(parse_opt_hex env arg arg_num t).2.2.2.1] at h2
      subst h2
      exact hex 128 _ (fun a b hab => by unfold same_up_to_verbose at hab ⊢; rw [hab])
    case h_pub =>
      intro o2 h2
      rw [(parse_opt_hex env arg arg_num t).2.2.2.2.1] at h2
      subst h2
      exact hex 130 _ (fun a b hab => by unfold same_up_to_verbose at hab ⊢; rw [hab])
    case h_w =>
      intro o2 h2
      rw [(parse_opt_hex env arg arg_num t).2.2.2.2.2] at h2
      subst h2
      exact hex 64 _ (fun a b hab => by unfold same_up_to_verbose at hab ⊢; rw [hab])
    case h_r =>
      intro o2 h2
      rw [(parse_opt_hex env arg arg_num t).2.1] at h2
      subst h2
      exact hex 64 _ (fun a b hab => by unfold same_up_to_verbose at hab ⊢; rw [hab])
    case h_m =>
      intro o2 h2
      rw [(parse_opt_hex env arg arg_num t).2.2.1] at h2
      subst h2
      exact hex 26 _ (fun a b hab => by unfold same_up_to_verbose at hab ⊢; rw [hab])
    case h_arg =>
      intro o2 h2
      rw [parse_opt_arg] at h2
      subst h2
      unfold same_up_to_verbose at h
      split_ifs <;> simp only [same_outcome_up_to_verbose, same_up_to_verbose, true_and]
      · exact h
      · rw [h]
    case h_end =>
      intro o2 h2
      rw [parse_opt_end] at h2
      subst h2
      split_ifs <;> simp only [same_outcome_up_to_verbose, true_and] <;> exact h
    case h_default =>
      intro k hk o2 h2
      rw [parse_opt_default env k arg arg_num t hk] at h2
      subst h2
      simp only [same_outcome_up_to_verbose, true_and]
      exact h
  exact key_step _ rfl

/-- A witness of C8: `-k 16` on the blank state and on the blank state in
verbose mode. -/
theorem C8_verbose_does_not_change_errors_witness :
    same_up_to_verbose blank_state.arguments verbose_state.arguments ∧
      same_outcome_up_to_verbose (parse_opt env_unsigned_int KEY_k "16" 0 blank_state)
        (parse_opt env_unsigned_int KEY_k "16" 0 verbose_state) :=
  ⟨rfl, C8_verbose_does_not_change_errors env_unsigned_int KEY_k "16" 0 blank_state
    verbose_state rfl⟩

/-! ## Claim C10 -/

/-- C10, as stated, fails: after `-q -v random` and after `-v -q random` on
the blank state both flags are set and the log level is `DEBUG`, the level
`-v` selects; the silent option does not take it back. -/
theorem C10_counterexample :
    argp_parse env_unsigned_int [(KEY_q, ""), (KEY_v, ""), (ARGP_KEY_ARG, "random")]
        blank_state =
      .parsed (set_command "random"
        { arguments := { blank_state.arguments with silent := 1, verbose := 1 },
          log_level := .DEBUG })
    ∧ argp_parse env_unsigned_int [(KEY_v, ""), (KEY_q, ""), (ARGP_KEY_ARG, "random")]
        blank_state =
      .parsed (set_command "random"
        { arguments := { blank_state.arguments with silent := 1, verbose := 1 },
          log_level := .DEBUG })
    ∧ blank_state.log_level = .INFO := by
  have hq : next_arg_num KEY_q 0 0 = 0 := by decide
  have hv : next_arg_num KEY_v 0 0 = 0 := by decide
  have ha : next_arg_num ARGP_KEY_ARG 0 0 = 1 := by decide
  refine ⟨?_, ?_, rfl⟩ <;>
    simp [argp_parse, argp_parse_from, parse_opt_q, parse_opt_v, parse_opt_arg, parse_opt_end,
      hq, hv, ha, NUM_ARGS, set_command]

/-- C10, amended: when a silent option (`-q` or `-s`) and `-v` are both
processed, in either order, both calls return 0, both flags are recorded
(`silent = 1` and `verbose = 1`), and the log level is `DEBUG` afterwards:
the silent option leaves the log level as it is. -/
theorem C10_silent_keeps_debug_level (env : Env) (arg1 arg2 : String) (n1 n2 : Nat)
    (s : State) :
    and_then (parse_opt env KEY_q arg1 n1 s) (parse_opt env KEY_v arg2 n2) =
        .ret 0 { arguments := { s.arguments with silent := 1, verbose := 1 },
                 log_level := .DEBUG }
    ∧ and_then (parse_opt env KEY_v arg1 n1 s) (parse_opt env KEY_q arg2 n2) =
        .ret 0 { arguments := { s.arguments with silent := 1, verbose := 1 },
                 log_level := .DEBUG }
    ∧ and_then (parse_opt env KEY_s arg1 n1 s) (parse_opt env KEY_v arg2 n2) =
        .ret 0 { arguments := { s.arguments with silent := 1, verbose := 1 },
                 log_level := .DEBUG }
    ∧ and_then (parse_opt env KEY_v arg1 n1 s) (parse_opt env KEY_s arg2 n2) =
        .ret 0 { arguments := { s.arguments with silent := 1, verbose := 1 },
                 log_level := .DEBUG }
    ∧ (∀ t : State, parse_opt env KEY_q arg1 n1 t =
          .ret 0 { arguments := { t.arguments with silent := 1 }, log_level := t.log_level })
    ∧ (∀ t : State, parse_opt env KEY_s arg1 n1 t =
          .ret 0 { arguments := { t.arguments with silent := 1 },
                   log_level := t.log_level }) := by
  refine ⟨?_, ?_, ?_, ?_, ?_, ?_⟩
  · simp [and_then, parse_opt_q, parse_opt_v]
  · simp [and_then, parse_opt_q, parse_opt_v]
  · simp [and_then, parse_opt_s, parse_opt_v]
  · simp [and_then, parse_opt_s, parse_opt_v]
  · intro t; rw [parse_opt_q]
  · intro t; rw [parse_opt_s]

/-! ## Effects of `parse_opt` -/

/-- The field of each key. -/
theorem target_field_values (n : Nat) :
    target_field KEY_a n = some .address ∧ target_field KEY_b n = some .bus ∧
    target_field KEY_q n = some .silent ∧ target_field KEY_s n = some .silent ∧
    target_field KEY_v n = some .verbose ∧ target_field KEY_f n = some .input_file ∧
    target_field OPT_UPDATE_SEED n = some .update_seed ∧
    target_field KEY_k n = some .key_slot ∧ target_field KEY_c n = some .challenge ∧
    target_field OPT_SIGNATURE n = some .signature ∧
    target_field OPT_PUB_KEY n = some .pub_key ∧
    target_field KEY_w n = some .write_data ∧ target_field KEY_r n = some .challenge_rsp ∧
    target_field KEY_m n = some .meta ∧ target_field ARGP_KEY_ARG n = some (.args n) ∧
    target_field ARGP_KEY_END n = none := by
  refine ⟨?_, ?_, ?_, ?_, ?_, ?_, ?_, ?_, ?_, ?_, ?_, ?_, ?_, ?_, ?_, ?_⟩ <;>
    simp [target_field, KEY_a, KEY_b, KEY_c, KEY_f, KEY_k, KEY_m, KEY_q, KEY_r, KEY_s, KEY_v,
      KEY_w, OPT_UPDATE_SEED, OPT_SIGNATURE, OPT_PUB_KEY, ARGP_KEY_ARG, ARGP_KEY_END]

/-- A key without a `case` has no field. -/
theorem target_field_default (key : Int) (n : Nat) (h : key ∉ known_keys) :
    target_field key n = none := by
  simp only [known_keys, List.mem_cons, List.mem_singleton, not_or, List.not_mem_nil,
    or_false] at h
  obtain ⟨h1, h2, h3, h4, h5, h6, h7, h8, h9, h10, h11, h12, h13, h14, h15, -⟩ := h
  unfold target_field
  rw [if_neg h1, if_neg h2, if_neg (not_or.2 ⟨h3, h4⟩), if_neg h5, if_neg h6, if_neg h7,
    if_neg h8, if_neg h9, if_neg h10, if_neg h11, if_neg h12, if_neg h13, if_neg h14,
    if_neg h15]

/-- A hex-bearing option as an effect. -/
theorem hex_option_effect (env : Env) (arg : String) (len : Nat)
    (store : arguments → arguments) (e : Effect)
    (he : ∀ s : State, e.apply s = { s with arguments := store s.arguments }) :
    (∀ s, hex_option env arg len s store = .usage s) ∨
      (∀ s, hex_option env arg len s store = .ret 0 (e.apply s)) := by
  unfold hex_option
  cases env.is_hex_arg arg len
  · left; intro s; simp
  · right; intro s; simp [he]

/-- An effect without a field is no effect. -/
theorem effect_field_none (e : Effect) (h : e.field = none) : e = .skip := by
  cases e <;> simp [Effect.field] at h
  rfl

/-- Every call of `parse_opt` either ends in a usage error, whatever the
state, or returns the code of its key after an effect that does not depend on
the state; the effect assigns to the field of the key, except for `-a` with an
argument of value 0, which has no effect. -/
theorem parse_opt_effect (env : Env) (key : Int) (arg : String) (arg_num : Nat) :
    (∀ s, parse_opt env key arg arg_num s = .usage s) ∨
    ∃ e : Effect, (∀ s, parse_opt env key arg arg_num s = .ret (return_code key) (e.apply s)) ∧
      (e.field = target_field key arg_num ∨
        (key = KEY_a ∧ strtol env.data_model arg 16 = 0 ∧ e = .skip)) := by
  obtain ⟨ta, tb, tq, ts, tv, tf, tu, tk, tc, tsig, tpub, tw, tr, tm, targ, tend⟩ :=
    target_field_values arg_num
  by_cases hk : key ∈ known_keys
  · have hcode : return_code key = 0 := if_pos hk
    rw [hcode]
    simp only [known_keys, List.mem_cons, List.mem_singleton, List.not_mem_nil,
      or_false] at hk
    rcases hk with
      rfl | rfl | rfl | rfl | rfl | rfl | rfl | rfl | rfl | rfl | rfl | rfl | rfl | rfl | rfl | rfl
    · right
      by_cases h0 : strtol env.data_model arg 16 = 0
      · refine ⟨.skip, fun s => ?_, Or.inr ⟨rfl, h0, rfl⟩⟩
        rw [parse_opt_a]; simp [step_a, h0, Effect.apply]
      · refine ⟨.set_address (env.address_conv (strtol env.data_model arg 16)),
          fun s => ?_, Or.inl (by rw [ta]; rfl)⟩
        have h1 : (0 : Int) ≠ strtol env.data_model arg 16 := fun e => h0 e.symm
        rw [parse_opt_a]; unfold step_a; rw [if_pos h1]; rfl
    · right
      exact ⟨.set_bus arg, fun s => by rw [parse_opt_b]; rfl, Or.inl (by rw [tb]; rfl)⟩
    · right
      exact ⟨.set_silent, fun s => by rw [parse_opt_q]; rfl, Or.inl (by rw [tq]; rfl)⟩
    · right
      exact ⟨.set_silent, fun s => by rw [parse_opt_s]; rfl, Or.inl (by rw [ts]; rfl)⟩
    · right
      exact ⟨.set_verbose, fun s => by rw [parse_opt_v]; rfl, Or.inl (by rw [tv]; rfl)⟩
    · right
      exact ⟨.set_input_file arg, fun s => by rw [parse_opt_f]; rfl, Or.inl (by rw [tf]; rfl)⟩
    · right
      exact ⟨.set_update_seed, fun s => by rw [parse_opt_update_seed]; rfl,
        Or.inl (by rw [tu]; rfl)⟩
    · by_cases hr : atoi env.data_model arg < 0 ∨ atoi env.data_model arg > 15
      · left; intro s; rw [parse_opt_k, if_pos hr]
      · right
        exact ⟨.set_key_slot (atoi env.data_model arg),
          fun s => by rw [parse_opt_k, if_neg hr]; rfl, Or.inl (by rw [tk]; rfl)⟩
    · rcases hex_option_effect env arg 64 (fun a => { a with challenge := some arg })
        (.set_challenge arg) (fun _ => rfl) with h | h
      · left; intro s; rw [(parse_opt_hex env arg arg_num s).1]; exact h s
      · right
        exact ⟨_, fun s => by rw [(parse_opt_hex env arg arg_num s).1]; exact h s,
          Or.inl (by rw [tc]; rfl)⟩
    · rcases hex_option_effect env arg 128 (fun a => { a with signature := some arg })
        (.set_signature arg) (fun _ => rfl) with h | h
      · left; intro s; rw [(parse_opt_hex env arg arg_num s).2.2.2.1]; exact h s
      · right
        exact ⟨_, fun s => by rw [(parse_opt_hex env arg arg_num s).2.2.2.1]; exact h s,
          Or.inl (by rw [tsig]; rfl)⟩
    · rcases hex_option_effect env arg 130 (fun a => { a with pub_key := some arg })
        (.set_pub_key arg) (fun _ => rfl) with h | h
      · left; intro s; rw [(parse_opt_hex env arg arg_num s).2.2.2.2.1]; exact h s
      · right
        exact ⟨_, fun s => by rw [(parse_opt_hex env arg arg_num s).2.2.2.2.1]; exact h s,
          Or.inl (by rw [tpub]; rfl)⟩
    · rcases hex_option_effect env arg 64 (fun a => { a with write_data := some arg })
        (.set_write_data arg) (fun _ => rfl) with h | h
      · left; intro s; rw [(parse_opt_hex env arg arg_num s).2.2.2.2.2]; exact h s
      · right
        exact ⟨_, fun s => by rw [(parse_opt_hex env arg arg_num s).2.2.2.2.2]; exact h s,
          Or.inl (by rw [tw]; rfl)⟩
    · rcases hex_option_effect env arg 64 (fun a => { a with challenge_rsp := some arg })
        (.set_challenge_rsp arg) (fun _ => rfl) with h | h
      · left; intro s; rw [(parse_opt_hex env arg arg_num s).2.1]; exact h s
      · right
        exact ⟨_, fun s => by rw [(parse_opt_hex env arg arg_num s).2.1]; exact h s,
          Or.inl (by rw [tr]; rfl)⟩
    · rcases hex_option_effect env arg 26 (fun a => { a with meta := some arg })
        (.set_meta arg) (fun _ => rfl) with h | h
      · left; intro s; rw [(parse_opt_hex env arg arg_num s).2.2.1]; exact h s
      · right
        exact ⟨_, fun s => by rw [(parse_opt_hex env arg arg_num s).2.2.1]; exact h s,
          Or.inl (by rw [tm]; rfl)⟩
    · by_cases hn : arg_num ≥ NUM_ARGS
      · left; intro s; rw [parse_opt_arg, dif_pos hn]
      · right
        exact ⟨.set_arg ⟨arg_num, Nat.lt_of_not_le hn⟩ arg,
          fun s => by rw [parse_opt_arg, dif_neg hn]; rfl, Or.inl (by rw [targ]; rfl)⟩
    · by_cases hn : arg_num < NUM_ARGS
      · left; intro s; rw [parse_opt_end, if_pos hn]
      · right
        exact ⟨.skip, fun s => by rw [parse_opt_end, if_neg hn]; rfl,
          Or.inl (by rw [tend]; rfl)⟩
  · right
    have hcode : return_code key = ARGP_ERR_UNKNOWN := if_neg hk
    rw [hcode]
    exact ⟨.skip, fun s => by rw [parse_opt_default env key arg arg_num s hk]; rfl,
      Or.inl (by rw [target_field_default key arg_num hk]; rfl)⟩

/-- An effect changes at most its field, and only `set_verbose` changes the
log level. -/
theorem effect_frame (e : Effect) (s : State) :
    unchanged_except e.field s.arguments (e.apply s).arguments ∧
      (e.field ≠ some .verbose → (e.apply s).log_level = s.log_level) := by
  cases e
  case set_arg i v =>
    refine ⟨⟨?_, ?_⟩, fun _ => rfl⟩
    · intro j hj
      have hij : j ≠ i := by
        intro h
        apply hj
        rw [h]
        rfl
      simp [Effect.apply, Function.update_noteq hij]
    · simp [Effect.apply]
  all_goals
    refine ⟨?_, ?_⟩
    · simp [unchanged_except, Effect.apply, Effect.field]
    · simp [Effect.apply, Effect.field]

/-- Effects on different fields commute. -/
theorem effect_comm (e1 e2 : Effect) (s : State) (h : e1.field ≠ e2.field) :
    e2.apply (e1.apply s) = e1.apply (e2.apply s) := by
  cases e1 <;> cases e2 <;>
    first
      | rfl
      | (exfalso; apply h; simp only [Effect.field]; done)
      | skip
  case set_arg.set_arg i v j w =>
    have hij : i ≠ j := by
      intro e
      apply h
      rw [e]
      rfl
    simp [Effect.apply, Function.update_comm hij]

/-- An effect overrides an earlier effect on the same field. -/
theorem effect_overwrite (e1 e2 : Effect) (s : State) (h : e1.field = e2.field) :
    e2.apply (e1.apply s) = e2.apply s := by
  cases e1 <;> cases e2 <;>
    first
      | rfl
      | (exfalso; simp only [Effect.field, reduceCtorEq, Option.some.injEq] at h; done)
      | skip
  case set_arg.set_arg i v j w =>
    have hij : i = j := by
      simp only [Effect.field, Option.some.injEq, Field.args.injEq] at h
      exact Fin.ext h
    subst hij
    simp [Effect.apply]

/-! ## Claim C12 -/

/-- Only `-v` has the field `verbose`. -/
theorem target_field_verbose (key : Int) (n : Nat)
    (h : target_field key n = some .verbose) : key = KEY_v := by
  obtain ⟨ta, tb, tq, ts, tv, tf, tu, tk, tc, tsig, tpub, tw, tr, tm, targ, tend⟩ :=
    target_field_values n
  by_cases hk : key ∈ known_keys
  · simp only [known_keys, List.mem_cons, List.mem_singleton, List.not_mem_nil,
      or_false] at hk
    rcases hk with
      rfl | rfl | rfl | rfl | rfl | rfl | rfl | rfl | rfl | rfl | rfl | rfl | rfl | rfl | rfl | rfl
    all_goals
      first
        | rfl
        | (rw [ta] at h; simp only [Option.some.injEq, reduceCtorEq] at h)
        | (rw [tb] at h; simp only [Option.some.injEq, reduceCtorEq] at h)
        | (rw [tq] at h; simp only [Option.some.injEq, reduceCtorEq] at h)
        | (rw [ts] at h; simp only [Option.some.injEq, reduceCtorEq] at h)
        | (rw [tf] at h; simp only [Option.some.injEq, reduceCtorEq] at h)
        | (rw [tu] at h; simp only [Option.some.injEq, reduceCtorEq] at h)
        | (rw [tk] at h; simp only [Option.some.injEq, reduceCtorEq] at h)
        | (rw [tc] at h; simp only [Option.some.injEq, reduceCtorEq] at h)
        | (rw [tsig] at h; simp only [Option.some.injEq, reduceCtorEq] at h)
        | (rw [tpub] at h; simp only [Option.some.injEq, reduceCtorEq] at h)
        | (rw [tw] at h; simp only [Option.some.injEq, reduceCtorEq] at h)
        | (rw [tr] at h; simp only [Option.some.injEq, reduceCtorEq] at h)
        | (rw [tm] at h; simp only [Option.some.injEq, reduceCtorEq] at h)
        | (rw [targ] at h; simp only [Option.some.injEq, reduceCtorEq] at h)
        | (rw [tend] at h; simp only [reduceCtorEq] at h)
  · rw [target_field_default key n hk] at h
    simp only [reduceCtorEq] at h

/-- What a call of `parse_opt` that returns has done, in terms of its effect. -/
theorem parse_opt_ret_effect (env : Env) (key : Int) (arg : String) (arg_num : Nat)
    (s s1 : State) (code : Int) (hstep : parse_opt env key arg arg_num s = .ret code s1) :
    ∃ e : Effect, (∀ t, parse_opt env key arg arg_num t = .ret (return_code key) (e.apply t)) ∧
      (e.field = target_field key arg_num ∨
        (key = KEY_a ∧ strtol env.data_model arg 16 = 0 ∧ e = .skip)) ∧
      code = return_code key ∧ s1 = e.apply s := by
  rcases parse_opt_effect env key arg arg_num with h | ⟨e, he, hf⟩
  · rw [h s] at hstep
    simp only [reduceCtorEq] at hstep
  · refine ⟨e, he, hf, ?_⟩
    rw [he s] at hstep
    simp only [Outcome.ret.injEq] at hstep
    exact ⟨hstep.1.symm, hstep.2.symm⟩

/-- C12: a call of `parse_opt` that returns leaves every field of the record
other than the field of its key as it was (`a` address, `b` bus, `q` and `s`
silent, `v` verbose, `f` input_file, update-seed update_seed, `k` key_slot,
`c` challenge, signature, public-key pub_key, `w` write_data, `r`
challenge_rsp, `m` meta, a positional word `args[arg_num]`); a key with a
`case` returns 0; a key without one returns `ARGP_ERR_UNKNOWN` and leaves the
state as it was, and so does `ARGP_KEY_END` with code 0. Outside the record,
the log level is changed by `-v` only. -/
theorem C12_frame (env : Env) (key : Int) (arg : String) (arg_num : Nat) (s s1 : State)
    (code : Int) (hstep : parse_opt env key arg arg_num s = .ret code s1) :
    unchanged_except (target_field key arg_num) s.arguments s1.arguments
    ∧ (key ∈ known_keys → code = 0)
    ∧ (key ∉ known_keys → code = ARGP_ERR_UNKNOWN ∧ s1 = s)
    ∧ (key = ARGP_KEY_END → code = 0 ∧ s1 = s)
    ∧ (key ≠ KEY_v → s1.log_level = s.log_level) := by
  obtain ⟨e, -, hf, hcode, hs1⟩ := parse_opt_ret_effect env key arg arg_num s s1 code hstep
  subst hcode hs1
  have hframe := effect_frame e s
  have hskip : target_field key arg_num = none → e = .skip := by
    intro hnone
    rcases hf with hf | ⟨-, -, hf⟩
    · exact effect_field_none e (hf.trans hnone)
    · exact hf
  refine ⟨?_, fun hk => if_pos hk, ?_, ?_, ?_⟩
  · rcases hf with hf | ⟨-, -, hf⟩
    · rw [← hf]; exact hframe.1
    · subst hf
      simp [unchanged_except, Effect.apply]
  · intro hk
    refine ⟨if_neg hk, ?_⟩
    rw [hskip (target_field_default key arg_num hk)]
    rfl
  · intro hk
    subst hk
    refine ⟨by decide, ?_⟩
    rw [hskip (target_field_values arg_num).2.2.2.2.2.2.2.2.2.2.2.2.2.2.2]
    rfl
  · intro hv
    rcases hf with hf | ⟨-, -, hf⟩
    · apply hframe.2
      rw [hf]
      exact fun h => hv (target_field_verbose key arg_num h)
    · subst hf
      rfl

/-- A witness of C12: `-b /dev/i2c-2` on the blank state. -/
theorem C12_frame_witness :
    unchanged_except (target_field KEY_b 0) blank_state.arguments
        ({ blank_state with arguments :=
            { blank_state.arguments with bus := some "/dev/i2c-2" } } : State).arguments
    ∧ (KEY_b ∈ known_keys → (0 : Int) = 0)
    ∧ (KEY_b ∉ known_keys → (0 : Int) = ARGP_ERR_UNKNOWN ∧
        ({ blank_state with arguments :=
            { blank_state.arguments with bus := some "/dev/i2c-2" } } : State) = blank_state)
    ∧ (KEY_b = ARGP_KEY_END → (0 : Int) = 0 ∧
        ({ blank_state with arguments :=
            { blank_state.arguments with bus := some "/dev/i2c-2" } } : State) = blank_state)
    ∧ (KEY_b ≠ KEY_v →
        ({ blank_state with arguments :=
            { blank_state.arguments with bus := some "/dev/i2c-2" } } : State).log_level =
          blank_state.log_level) :=
  C12_frame env_unsigned_int KEY_b "/dev/i2c-2" 0 blank_state _ 0
    (parse_opt_b env_unsigned_int "/dev/i2c-2" 0 blank_state)

/-! ## Claim C14 -/

/-- A call of `parse_opt` that is not a usage error, in terms of its effect. -/
theorem parse_opt_accepted_effect (env : Env) (key : Int) (arg : String) (arg_num : Nat)
    (s : State) (h : (parse_opt env key arg arg_num s).is_usage = false) :
    ∃ e : Effect, (∀ t, parse_opt env key arg arg_num t = .ret (return_code key) (e.apply t)) ∧
      (e.field = target_field key arg_num ∨
        (key = KEY_a ∧ strtol env.data_model arg 16 = 0 ∧ e = .skip)) := by
  rcases parse_opt_effect env key arg arg_num with hu | ⟨e, he, hf⟩
  · rw [hu s] at h
    simp [Outcome.is_usage] at h
  · exact ⟨e, he, hf⟩

/-- C14, as stated, fails for `-a`: `-a 61` and `-a 0` are both accepted, and
after `-a 61 -a 0` the address is still `0x61`; it holds neither the value of
the second argument, 0, nor what `-a 0` alone leaves, `0x60`. -/
theorem C14_counterexample :
    parse_opt env_unsigned_int KEY_a "61" 0 blank_state =
        .ret 0 { blank_state with arguments := { blank_state.arguments with address := 97 } }
    ∧ parse_opt env_unsigned_int KEY_a "0" 0 blank_state = .ret 0 blank_state
    ∧ strtol .LP64 "0" 16 = 0
    ∧ blank_state.arguments.address = 96
    ∧ and_then (parse_opt env_unsigned_int KEY_a "61" 0 blank_state)
          (parse_opt env_unsigned_int KEY_a "0" 0) =
        .ret 0 { blank_state with arguments := { blank_state.arguments with address := 97 } }
    ∧ and_then (parse_opt env_unsigned_int KEY_a "61" 0 blank_state)
          (parse_opt env_unsigned_int KEY_a "0" 0) ≠
        parse_opt env_unsigned_int KEY_a "0" 0 blank_state := by
  have h61 : strtol .LP64 "61" 16 = 97 := by decide
  have h0 : strtol .LP64 "0" 16 = 0 := by decide
  have e1 : parse_opt env_unsigned_int KEY_a "61" 0 blank_state =
      .ret 0 { blank_state with arguments := { blank_state.arguments with address := 97 } } := by
    simp [parse_opt_a, step_a, env_unsigned_int, h61, to_unsigned_int]
  have e2 : ∀ t, parse_opt env_unsigned_int KEY_a "0" 0 t = .ret 0 t := by
    intro t
    simp [parse_opt_a, step_a, env_unsigned_int, h0]
  refine ⟨e1, e2 _, h0, rfl, ?_, ?_⟩
  · rw [e1]
    simp only [and_then]
    rw [e2]
  · rw [e1]
    simp only [and_then]
    rw [e2, e2]
    intro h
    simp only [Outcome.ret.injEq, true_and] at h
    have ha := congrArg (fun t : State => t.arguments.address) h
    simp [blank_state] at ha

/-- C14, amended: for two calls of `parse_opt` neither of which is a usage
error on the state `s`: when their keys have different fields, the two orders
end in the same state and neither order is a usage error; when the key and
`arg_num` are the same and the second call is not `-a` with an argument of
value 0, the two calls one after the other leave what the second alone
leaves; and a call made twice leaves what it leaves when made once. -/
theorem C14_order_and_repetition (env : Env) (k1 k2 : Int) (a1 a2 : String) (n1 n2 : Nat)
    (s : State)
    (h1 : (parse_opt env k1 a1 n1 s).is_usage = false)
    (h2 : (parse_opt env k2 a2 n2 s).is_usage = false) :
    (target_field k1 n1 ≠ target_field k2 n2 →
      (and_then (parse_opt env k1 a1 n1 s) (parse_opt env k2 a2 n2)).is_usage = false ∧
      (and_then (parse_opt env k2 a2 n2 s) (parse_opt env k1 a1 n1)).is_usage = false ∧
      (and_then (parse_opt env k1 a1 n1 s) (parse_opt env k2 a2 n2)).state =
        (and_then (parse_opt env k2 a2 n2 s) (parse_opt env k1 a1 n1)).state)
    ∧ (k1 = k2 → n1 = n2 → (k2 = KEY_a → strtol env.data_model a2 16 ≠ 0) →
      and_then (parse_opt env k1 a1 n1 s) (parse_opt env k2 a2 n2) =
        parse_opt env k2 a2 n2 s)
    ∧ and_then (parse_opt env k1 a1 n1 s) (parse_opt env k1 a1 n1) =
        parse_opt env k1 a1 n1 s := by
  obtain ⟨e1, he1, hf1⟩ := parse_opt_accepted_effect env k1 a1 n1 s h1
  obtain ⟨e2, he2, hf2⟩ := parse_opt_accepted_effect env k2 a2 n2 s h2
  have h12 : and_then (parse_opt env k1 a1 n1 s) (parse_opt env k2 a2 n2) =
      .ret (return_code k2) (e2.apply (e1.apply s)) := by
    rw [he1 s]
    simp only [and_then]
    rw [he2]
  have h21 : and_then (parse_opt env k2 a2 n2 s) (parse_opt env k1 a1 n1) =
      .ret (return_code k1) (e1.apply (e2.apply s)) := by
    rw [he2 s]
    simp only [and_then]
    rw [he1]
  have h11 : and_then (parse_opt env k1 a1 n1 s) (parse_opt env k1 a1 n1) =
      .ret (return_code k1) (e1.apply (e1.apply s)) := by
    rw [he1 s]
    simp only [and_then]
    rw [he1]
  refine ⟨?_, ?_, ?_⟩
  · intro hne
    rw [h12, h21]
    refine ⟨rfl, rfl, ?_⟩
    simp only [Outcome.state]
    rcases hf1 with hf1 | ⟨-, -, hf1⟩
    · rcases hf2 with hf2 | ⟨-, -, hf2⟩
      · exact effect_comm e1 e2 s (by rw [hf1, hf2]; exact hne)
      · subst hf2; rfl
    · subst hf1; rfl
  · intro hk hn ha
    subst hk hn
    rw [h12, he2 s]
    have hf2' : e2.field = target_field k1 n1 := by
      rcases hf2 with hf2 | ⟨hka, h0, -⟩
      · exact hf2
      · exact absurd h0 (ha hka)
    rcases hf1 with hf1 | ⟨-, -, hf1⟩
    · rw [effect_overwrite e1 e2 s (hf1.trans hf2'.symm)]
    · subst hf1; rfl
  · rw [h11, he1 s, effect_overwrite e1 e1 s rfl]

/-- A witness of C14, amended: `-b /dev/i2c-2` and `-k 3` on the blank
state. -/
theorem C14_order_and_repetition_witness :
    (parse_opt env_unsigned_int KEY_b "/dev/i2c-2" 0 blank_state).is_usage = false
    ∧ (parse_opt env_unsigned_int KEY_k "3" 0 blank_state).is_usage = false
    ∧ (target_field KEY_b 0 ≠ target_field KEY_k 0 →
      (and_then (parse_opt env_unsigned_int KEY_b "/dev/i2c-2" 0 blank_state)
        (parse_opt env_unsigned_int KEY_k "3" 0)).is_usage = false ∧
      (and_then (parse_opt env_unsigned_int KEY_k "3" 0 blank_state)
        (parse_opt env_unsigned_int KEY_b "/dev/i2c-2" 0)).is_usage = false ∧
      (and_then (parse_opt env_unsigned_int KEY_b "/dev/i2c-2" 0 blank_state)
        (parse_opt env_unsigned_int KEY_k "3" 0)).state =
        (and_then (parse_opt env_unsigned_int KEY_k "3" 0 blank_state)
          (parse_opt env_unsigned_int KEY_b "/dev/i2c-2" 0)).state)
    ∧ target_field KEY_b 0 ≠ target_field KEY_k 0 := by
  have hb : (parse_opt env_unsigned_int KEY_b "/dev/i2c-2" 0 blank_state).is_usage = false := by
    rw [parse_opt_b]; rfl
  have h3 : atoi env_unsigned_int.data_model "3" = 3 := by decide
  have hk : (parse_opt env_unsigned_int KEY_k "3" 0 blank_state).is_usage = false := by
    rw [parse_opt_k, h3]; rfl
  refine ⟨hb, hk,
    (C14_order_and_repetition env_unsigned_int KEY_b KEY_k "/dev/i2c-2" "3" 0 0 blank_state
      hb hk).1, ?_⟩
  rw [(target_field_values 0).2.1, (target_field_values 0).2.2.2.2.2.2.2.1]
  simp

/-! ## Claim C13 -/

/-- A decimal digit is a digit of `strtol` with its value below 10. -/
theorem digit_value_of_isdigit (c : Char) (h : isdigit c = true) :
    digit_value c = some (c.toNat - 48) ∧ c.toNat - 48 < 10 := by
  simp only [isdigit, Bool.and_eq_true, decide_eq_true_eq] at h
  refine ⟨?_, by omega⟩
  unfold digit_value
  rw [if_pos h]

/-- The digit loop in base 10 stops at a character that is not a decimal
digit. -/
theorem strtol_digits_stop (rest : List Char) (acc : Nat)
    (h : ∀ c, rest.head? = some c → isdigit c = false) :
    strtol_digits 10 rest acc = acc := by
  cases rest with
  | nil => rfl
  | cons c cs =>
    have hc := h c rfl
    simp only [isdigit, Bool.and_eq_false_iff, decide_eq_false_iff_not, not_le] at hc
    unfold strtol_digits
    cases hd : digit_value c with
    | none => rfl
    | some d =>
      have hd10 : ¬ d < 10 := by
        unfold digit_value at hd
        split_ifs at hd with h1 h2 h3
        · omega
        · simp only [Option.some.injEq] at hd; omega
        · simp only [Option.some.injEq] at hd; omega
      simp only [if_neg hd10]

/-- The digit loop in base 10 on a run of decimal digits followed by something
that is not a decimal digit. -/
theorem strtol_digits_decimal (rest : List Char)
    (hrest : ∀ c, rest.head? = some c → isdigit c = false) :
    ∀ (ds : List Char) (acc : Nat), (∀ c ∈ ds, isdigit c = true) →
      strtol_digits 10 (ds ++ rest) acc =
        ds.foldl (fun acc c => acc * 10 + (c.toNat - 48)) acc := by
  intro ds
  induction ds with
  | nil => intro acc _; exact strtol_digits_stop rest acc hrest
  | cons d ds ih =>
    intro acc hds
    obtain ⟨hv, hlt⟩ := digit_value_of_isdigit d (hds d (List.mem_cons_self d ds))
    have hrec := ih (acc * 10 + (d.toNat - 48)) (fun c hc => hds c (List.mem_cons_of_mem d hc))
    simp only [List.cons_append, List.foldl_cons]
    unfold strtol_digits
    simp only [hv, if_pos hlt]
    exact hrec

/-- A value in `[0, 15]` is left as it is by the range check of `strtol` and
the conversion to `int`. -/
theorem long_to_int_small (dm : DataModel) (neg : Bool) (v : Nat) (hv : v ≤ 15)
    (h0 : neg = true → v = 0) :
    long_to_int
      (if neg = true then
        (if -(v : Int) < LONG_MIN dm then LONG_MIN dm else -(v : Int))
       else (if LONG_MAX dm < (v : Int) then LONG_MAX dm else (v : Int))) = (v : Int) := by
  cases neg
  · have h1 : ¬ LONG_MAX dm < (v : Int) := by
      cases dm <;> simp only [LONG_MAX] <;> omega
    simp only [Bool.false_eq_true, if_false, if_neg h1]
    unfold long_to_int
    omega
  · have hz := h0 rfl
    subst hz
    have h1 : ¬ -((0 : Nat) : Int) < LONG_MIN dm := by
      cases dm <;> simp only [LONG_MIN, LONG_MAX] <;> omega
    simp only [if_true, if_neg h1]
    unfold long_to_int
    omega

/-- `atoi` of an argument without a leading decimal number is 0. -/
theorem atoi_no_leading_number (dm : DataModel) (arg : String)
    (h : no_leading_number arg = true) : atoi dm arg = 0 := by
  unfold no_leading_number at h
  have hd : strtol_digits 10 (strtol_sign (arg.data.dropWhile isspace)).2 0 = 0 := by
    apply strtol_digits_stop
    intro c hc
    cases hr : (strtol_sign (arg.data.dropWhile isspace)).2 with
    | nil => rw [hr] at hc; simp at hc
    | cons c1 cs =>
      rw [hr] at hc h
      simp only [List.head?_cons, Option.some.injEq] at hc
      subst hc
      simpa using h
  have hskip : strtol_skip_0x 10 (strtol_sign (arg.data.dropWhile isspace)).2 =
      (strtol_sign (arg.data.dropWhile isspace)).2 := by
    simp [strtol_skip_0x]
  unfold atoi strtol
  simp only [hskip, hd]
  exact long_to_int_small dm _ 0 (by omega) (fun _ => rfl)

/-- `atoi` of a run of decimal digits of value at most 15, followed by
something that is not a decimal digit, is that value. -/
theorem atoi_decimal (dm : DataModel) (ds rest : List Char) (hne : ds ≠ [])
    (hds : ∀ c ∈ ds, isdigit c = true)
    (hrest : ∀ c, rest.head? = some c → isdigit c = false)
    (hv : decimal_value ds ≤ 15) :
    atoi dm (String.mk (ds ++ rest)) = (decimal_value ds : Int) := by
  cases ds with
  | nil => exact absurd rfl hne
  | cons d ds1 =>
    have hdig := hds d (List.mem_cons_self d ds1)
    have hd : 48 ≤ d.toNat ∧ d.toNat ≤ 57 := by
      simpa only [isdigit, Bool.and_eq_true, decide_eq_true_eq] using hdig
    have hsp : isspace d = false := by
      simp only [isspace, Bool.or_eq_false_iff, beq_eq_false_iff_ne, Bool.and_eq_false_iff,
        decide_eq_false_iff_not, not_le]
      omega
    have hdrop : (d :: ds1 ++ rest).dropWhile isspace = d :: (ds1 ++ rest) := by
      simp only [List.cons_append, List.dropWhile_cons, hsp]
      rfl
    have hsign : strtol_sign (d :: (ds1 ++ rest)) = (false, d :: (ds1 ++ rest)) := by
      unfold strtol_sign
      split
      · next heq =>
        simp only [List.cons.injEq] at heq
        rw [heq.1] at hd
        exact absurd hd (by decide)
      · next heq =>
        simp only [List.cons.injEq] at heq
        rw [heq.1] at hd
        exact absurd hd (by decide)
      · rfl
    have hskip : strtol_skip_0x 10 (d :: (ds1 ++ rest)) = d :: (ds1 ++ rest) := by
      simp [strtol_skip_0x]
    have hval : strtol_digits 10 (d :: (ds1 ++ rest)) 0 = decimal_value (d :: ds1) := by
      have := strtol_digits_decimal rest hrest (d :: ds1) 0 hds
      simpa only [List.cons_append, decimal_value] using this
    unfold atoi strtol
    simp only [hdrop, hsign, hskip, hval]
    exact long_to_int_small dm false _ hv (fun h => absurd h (by decide))

/-- C13: the check of `-k` looks at the `atoi` value only. An argument without
a leading decimal number (after white space and an optional sign no digit
follows) is not a usage error and stores `key_slot = 0`; an argument made of
decimal digits of value at most 15 followed by anything that does not go on
with a digit is not a usage error and stores that value. So `abc` and the
empty string store 0 and `7x` stores 7. -/
theorem C13_key_slot_checks_atoi_value (env : Env) (arg_num : Nat) (s : State)
    (arg : String) (ds rest : List Char)
    (harg : no_leading_number arg = true)
    (hne : ds ≠ [])
    (hds : ∀ c ∈ ds, isdigit c = true)
    (hrest : ∀ c, rest.head? = some c → isdigit c = false)
    (hv : decimal_value ds ≤ 15) :
    parse_opt env KEY_k arg arg_num s =
        .ret 0 { s with arguments := { s.arguments with key_slot := 0 } }
    ∧ parse_opt env KEY_k (String.mk (ds ++ rest)) arg_num s =
        .ret 0 { s with arguments := { s.arguments with key_slot := decimal_value ds } }
    ∧ parse_opt env KEY_k "abc" arg_num s =
        .ret 0 { s with arguments := { s.arguments with key_slot := 0 } }
    ∧ parse_opt env KEY_k "" arg_num s =
        .ret 0 { s with arguments := { s.arguments with key_slot := 0 } }
    ∧ parse_opt env KEY_k "7x" arg_num s =
        .ret 0 { s with arguments := { s.arguments with key_slot := 7 } } := by
  have hnone : ∀ a, no_leading_number a = true →
      parse_opt env KEY_k a arg_num s =
        .ret 0 { s with arguments := { s.arguments with key_slot := 0 } } := by
    intro a ha
    rw [parse_opt_k, atoi_no_leading_number env.data_model a ha]
    simp
  have hnum : ∀ (ds rest : List Char), ds ≠ [] → (∀ c ∈ ds, isdigit c = true) →
      (∀ c, rest.head? = some c → isdigit c = false) → decimal_value ds ≤ 15 →
      parse_opt env KEY_k (String.mk (ds ++ rest)) arg_num s =
        .ret 0 { s with arguments := { s.arguments with key_slot := decimal_value ds } } := by
    intro ds rest h1 h2 h3 h4
    rw [parse_opt_k, atoi_decimal env.data_model ds rest h1 h2 h3 h4]
    have h5 : ¬ (((decimal_value ds : Nat) : Int) < 0 ∨ ((decimal_value ds : Nat) : Int) > 15) := by
      omega
    rw [if_neg h5]
  refine ⟨hnone arg harg, hnum ds rest hne hds hrest hv, hnone "abc" (by decide),
    hnone "" (by decide), ?_⟩
  have h7 := hnum ['7'] ['x'] (by decide) (by decide) (by decide) (by decide)
  have e7 : decimal_value ['7'] = 7 := by decide
  rw [e7] at h7
  exact h7

/-- A witness of C13: the arguments `-` and `015zz`. -/
theorem C13_key_slot_checks_atoi_value_witness :
    parse_opt env_unsigned_int KEY_k "-" 0 blank_state =
        .ret 0 { blank_state with arguments := { blank_state.arguments with key_slot := 0 } }
    ∧ parse_opt env_unsigned_int KEY_k (String.mk (['0', '1', '5'] ++ ['z', 'z'])) 0
          blank_state =
        .ret 0 { blank_state with arguments :=
          { blank_state.arguments with key_slot := decimal_value ['0', '1', '5'] } }
    ∧ decimal_value ['0', '1', '5'] = 15 :=
  ⟨(C13_key_slot_checks_atoi_value env_unsigned_int 0 blank_state "-" ['0', '1', '5']
      ['z', 'z'] (by decide) (by decide) (by decide) (by decide) (by decide)).1,
    (C13_key_slot_checks_atoi_value env_unsigned_int 0 blank_state "-" ['0', '1', '5']
      ['z', 'z'] (by decide) (by decide) (by decide) (by decide) (by decide)).2.1,
    by decide⟩

/-! ## Claim C11 -/

/-- On a command line all of whose elements reach `parse_opt`, the two
drivers agree. -/
theorem argp_parse_argv_from_callback_items (env : Env) (cmdline : List (Int × String)) :
    ∀ (arg_num : Nat) (s : State),
      argp_parse_argv_from env (callback_items cmdline) arg_num s =
        (match argp_parse_from env cmdline arg_num s with
         | .exited s1 => .ended EX_USAGE s1
         | .parsed s1 => .returned s1) := by
  induction cmdline with
  | nil =>
    intro arg_num s
    simp only [callback_items, List.map_nil, argp_parse_argv_from, argp_parse_from]
    cases parse_opt env ARGP_KEY_END "" arg_num s <;> rfl
  | cons ev rest ih =>
    intro arg_num s
    obtain ⟨key, arg⟩ := ev
    simp only [callback_items, List.map_cons, argp_parse_argv_from, argp_parse_from]
    cases hstep : parse_opt env key arg arg_num s with
    | usage s1 => rfl
    | ret code s1 => exact ih (next_arg_num key code arg_num) s1

/-- On a command line all of whose elements reach `parse_opt`, `main_argv` is
`main`. -/
theorem main_argv_callback_items (env : Env) (dispatch : Option String → arguments → Int)
    (init : State) (cmdline : List (Int × String)) :
    main_argv env dispatch init (callback_items cmdline) = main env dispatch init cmdline := by
  unfold main_argv main argp_parse_argv argp_parse
  rw [argp_parse_argv_from_callback_items]
  cases argp_parse_from env cmdline 0 init <;> rfl

end EClet
